import Mathlib

/-!
Verification of the shelf TUI state machine (pkg/tui, pkg/storage).

This file gives a shallow embedding of the interactive state machine in
src/unnamed/part_003 (the Bubble Tea `Model`/`Update` for package tui),
the batch-import pipeline in src/unnamed/part_002, and the storage
operations in pkg/storage/storage.go that those handlers call
synchronously.

Modelling conventions:
- Go `int` is `Int`; Go integer division truncates toward zero, written
  `Int.tdiv`.  Go `uint64` (the fetch generation) is `Nat` reduced mod 2^64
  on increment.
- `tea.Cmd` values are reified into the inductive `Cmd`; `nil` is the
  empty list and `tea.Batch` concatenates.  A background command's only
  effect on the core is to later deliver one `Msg`, so `update` returns
  `Model × List Cmd`.
- The storage collaborator is modelled as its cached article list plus a
  base path: disk state and the cache coincide (scan reflects the last
  successful write).  Disk I/O failure branches (unreadable files,
  write errors) are not modelled; the re-sort performed by `scan` is
  abstracted away (the store list order is abstract, and no theorem below
  depends on it).  A successfully saved article is recorded with the title
  passed to save (the extractor writes exactly that title into the front
  matter it generates) and with file path "articles/<slug>/index.md".
- `net/url.Parse` (Go standard library, external to the repository) is
  modelled for the scheme-prefixed strings the handler produces: the host
  is the authority component after the last "@", stopped at the first
  "/", "?" or "#"; an authority containing a space is a parse error.
  Rarer net/url error cases (control characters, malformed ports) are not
  modelled.
- Unicode character classes (`unicode.IsLetter`, `strings.ToLower`) are
  modelled by their ASCII restrictions, and Go byte lengths by character
  counts; the two agree on ASCII data.
- The bubbles text input (external library) is modelled as its value
  string: printable single-rune keys append, backspace deletes, other
  keys are ignored.
-/

namespace Shelf

/-! ## Go string helpers (strings package semantics)

These are written over `List Char` with structural recursion so that
concrete witnesses evaluate inside the kernel. -/

/-- Occurrence of `needle` anywhere in the haystack. -/
def containsSub (needle : List Char) : List Char → Bool
  | [] => needle.isEmpty
  | c :: rest => needle.isPrefixOf (c :: rest) || containsSub needle rest

/-- Go `strings.Contains`. -/
def goContains (s sub : String) : Bool := containsSub sub.data s.data

/-- Go `strings.HasPrefix`. -/
def goHasPrefix (s pre : String) : Bool := pre.data.isPrefixOf s.data

/-- Go `strings.TrimSpace` (ASCII whitespace). -/
def goTrimSpace (s : String) : String :=
  String.mk (((s.data.dropWhile Char.isWhitespace).reverse.dropWhile Char.isWhitespace).reverse)

/-- Go `strings.ToLower` (ASCII restriction). -/
def goToLower (s : String) : String := String.mk (s.data.map Char.toLower)

/-- Go `strings.Join`. -/
def goJoin (sep : String) : List String → String
  | [] => ""
  | [x] => x
  | x :: y :: rest => x ++ sep ++ goJoin sep (y :: rest)

/-- Split before/after the first occurrence of a character (`none` when
absent). -/
def breakAtChar (sep : Char) : List Char → Option (List Char × List Char)
  | [] => none
  | c :: rest =>
    if c = sep then some ([], rest)
    else
      match breakAtChar sep rest with
      | none => none
      | some (b, a) => some (c :: b, a)

/-- Go `strings.SplitN(s, sep, 2)` for a one-character separator. -/
def splitN2 (s : String) (sep : Char) : List String :=
  match breakAtChar sep s.data with
  | none => [s]
  | some (b, a) => [String.mk b, String.mk a]

/-- Go `strings.Split` on a one-character separator. -/
def splitChar (sep : Char) : List Char → List (List Char)
  | [] => [[]]
  | c :: rest =>
    let r := splitChar sep rest
    if c = sep then [] :: r
    else
      match r with
      | [] => [[c]]
      | h :: t => (c :: h) :: t

/-! ## storage.ArticleMeta (pkg/storage/storage.go) -/

/-- Article metadata as parsed from markdown front matter.  The `progress`
field is modelled from the spec: the spec lists
`store.updateProgress(path, line)` among the collaborator contracts and the
TUI reads `article.Progress`; the storage source under src predates that
field. -/
structure ArticleMeta where
  title : String
  author : String
  sourceURL : String
  sourceDomain : String
  savedAt : Int
  tags : List String
  filePath : String
  fileSize : Int
  progress : Int
deriving Repr, DecidableEq

/-- Go `hasTag` (storage.go): case-insensitive tag membership. -/
def hasTag (tags : List String) (tag : String) : Bool :=
  let tl := goToLower tag
  tags.any (fun t => goToLower t = tl)

/-- Go `ArticleMeta.IsArchived`: has the "archived" tag. -/
def ArticleMeta.isArchived (m : ArticleMeta) : Bool := hasTag m.tags "archived"

/-! ## Slug derivation (storage.go slugify) -/

/-- Character loop of Go `slugify`: letters and digits are kept, any other
run of characters becomes a single hyphen (`lastWasHyphen` flag). -/
def slugChars : List Char → Bool → List Char
  | [], _ => []
  | r :: rest, lastWasHyphen =>
    if r.isAlpha || r.isDigit then r :: slugChars rest false
    else if !lastWasHyphen then Char.ofNat 45 :: slugChars rest true
    else slugChars rest true

/-- Collapse runs of hyphens (Go `multiHyphenRe.ReplaceAllString(slug, "-")`);
the flag records whether the previous kept character was a hyphen. -/
def collapseHyphens : List Char → Bool → List Char
  | [], _ => []
  | c :: rest, prevHyphen =>
    if c = Char.ofNat 45 then
      if prevHyphen then collapseHyphens rest true
      else Char.ofNat 45 :: collapseHyphens rest true
    else c :: collapseHyphens rest false

/-- Go `slugify` (storage.go): lowercase, replace non-alphanumeric runs with
hyphens, trim hyphens, cap at 60 (bytes in Go, characters here), collapse
hyphen runs, defaulting to "untitled". -/
def goSlugify (s : String) : String :=
  let cs := slugChars (goToLower s).data false
  let trimmed := ((cs.dropWhile (fun c => c = Char.ofNat 45)).reverse.dropWhile
      (fun c => c = Char.ofNat 45)).reverse
  let capped :=
    if trimmed.length > 60 then
      ((trimmed.take 60).reverse.dropWhile (fun c => c = Char.ofNat 45)).reverse
    else trimmed
  let collapsed := collapseHyphens capped false
  if collapsed = [] then "untitled" else String.mk collapsed

/-! ## Store (pkg/storage/storage.go, second revision in the file) -/

/-- The storage collaborator: base path plus the scanned article cache.
Disk state and cache coincide (every operation rescans on success). -/
structure Store where
  basePath : String
  articles : List ArticleMeta
deriving Repr, DecidableEq

/-- Relative index path for a slug, as produced by `saveContent`. -/
def slugIndexPath (slug : String) : String := "articles/" ++ slug ++ "/index.md"

/-- Go `Store.List` (the scan re-sort is abstracted; see header). -/
def Store.list (s : Store) : List ArticleMeta := s.articles

/-- Existence of the slug directory on disk (`os.Stat` in SaveContent). -/
def Store.slugOnDisk (s : Store) (slug : String) : Bool :=
  s.articles.any (fun a => a.filePath = slugIndexPath slug)

/-- Fresh metadata for a just-saved article (scan of the written front
matter; see header for the title convention). -/
def newMeta (title slug : String) : ArticleMeta :=
  { title := title, author := "", sourceURL := "", sourceDomain := ""
    savedAt := 0, tags := [], filePath := slugIndexPath slug
    fileSize := 0, progress := 0 }

/-- Result of `Store.SaveContent`: success with the new store, or
`*ErrArticleExists` carrying the slug and the existing article's title. -/
inductive SaveOutcome where
  | ok (s : Store)
  | alreadyExists (slug existingTitle : String)
deriving Repr, DecidableEq

/-- Go `Store.SaveContent`: refuses to overwrite an existing slug. -/
def Store.saveContent (s : Store) (title : String) (_content : String) : SaveOutcome :=
  let slug := goSlugify title
  if s.slugOnDisk slug then
    let existingTitle :=
      match s.articles.find? (fun a => a.filePath = slugIndexPath slug) with
      | some a => if a.title ≠ "" then a.title else slug
      | none => slug
    .alreadyExists slug existingTitle
  else .ok { s with articles := newMeta title slug :: s.articles }

/-- Go `Store.SaveContentForce`: overwrites any existing article with the
same slug. -/
def Store.saveContentForce (s : Store) (title : String) (_content : String) : Store :=
  let slug := goSlugify title
  { s with articles :=
      newMeta title slug :: s.articles.filter (fun a => a.filePath ≠ slugIndexPath slug) }

/-- Go `Store.Delete`: removes the article at the given relative path. -/
def Store.delete (s : Store) (filePath : String) : Store :=
  { s with articles := s.articles.filter (fun a => a.filePath ≠ filePath) }

/-- Go `Store.UpdateTags`: rewrites the tags line of the article at the
given path (front-matter splicing and rescan abstracted to the field
update; the I/O failure branch is not modelled). -/
def Store.updateTags (s : Store) (filePath : String) (tags : List String) : Store :=
  { s with articles :=
      s.articles.map (fun a => if a.filePath = filePath then { a with tags := tags } else a) }

/-- Modelled from the spec: `store.updateProgress(path, line)` persists the
line number as reading progress (the storage source under src lacks this
operation; only its TUI caller is present). -/
def Store.updateProgress (s : Store) (filePath : String) (line : Int) : Store :=
  { s with articles :=
      s.articles.map (fun a => if a.filePath = filePath then { a with progress := line } else a) }

/-- Go `Store.GetFilePath`: base-path join (filepath.Join modelled as
slash concatenation). -/
def Store.getFilePath (s : Store) (relPath : String) : String :=
  s.basePath ++ "/" ++ relPath

/-- Go `Store.Search`: substring filter over lowered title, author, domain
and comma-joined tags; empty query returns the whole list (re-sort
abstracted as in `Store.list`). -/
def Store.search (s : Store) (query : String) : List ArticleMeta :=
  if query = "" then s.list
  else
    let q := goToLower query
    s.articles.filter (fun m =>
      goContains (goToLower m.title) q ||
      goContains (goToLower m.author) q ||
      goContains (goToLower m.sourceDomain) q ||
      goContains (goToLower (goJoin "," m.tags)) q)

/-! ## URL validation model (net/url, external library; see header) -/

/-- Strip a leading http:// or https:// scheme. -/
def dropScheme (s : String) : String :=
  if goHasPrefix s "https://" then s.drop 8
  else if goHasPrefix s "http://" then s.drop 7
  else s

/-- Authority component: everything before the first path, query or
fragment delimiter. -/
def authorityOf (s : String) : List Char :=
  (dropScheme s).data.takeWhile (fun c => c ≠ '/' && c ≠ '?' && c ≠ '#')

/-- Host of an authority: the part after the last "@" (userinfo stripped);
the port, when present, stays in the host as in Go `url.URL.Host`. -/
def hostOfAuthority (auth : List Char) : List Char :=
  (auth.reverse.takeWhile (fun c => c ≠ '@')).reverse

/-- Model of `net/url.Parse` restricted to host extraction on the
scheme-prefixed strings `handleAddURLKeys` builds; `none` is a parse
error. -/
def goURLHost (s : String) : Option String :=
  let auth := authorityOf s
  if auth.any (fun c => c = ' ') then none
  else some (String.mk (hostOfAuthority auth))

/-- The submit-time validity check of `handleAddURLKeys`: parses with a
non-empty host containing a dot. -/
def validArticleURL (raw : String) : Bool :=
  match goURLHost raw with
  | none => false
  | some h => h ≠ "" && goContains h "."

/-! ## Viewport math (part_003 calcVisibleItems / clampScroll) -/

/-- Go `clampScroll`: move the viewport only when the cursor leaves it,
then clamp the offset into [0, max 0 (totalItems − visibleItems)]. -/
def clampScroll (cursor scrollPos visibleItems totalItems : Int) : Int :=
  let s1 := if cursor < scrollPos then cursor else scrollPos
  let s2 := if cursor ≥ s1 + visibleItems then cursor - visibleItems + 1 else s1
  let maxScroll := if totalItems - visibleItems < 0 then 0 else totalItems - visibleItems
  let s3 := if s2 > maxScroll then maxScroll else s2
  if s3 < 0 then 0 else s3

/-! ## UI state machine (src/unnamed/part_003) -/

/-- Go `State`: the mutually exclusive UI modes. -/
inductive UIState where
  | list
  | addURL
  | loading
  | search
  | confirmOverwrite
  | confirmDelete
  | gatheringTabs
  | importing
  | safariWaiting
  | help
deriving Repr, DecidableEq

/-- Extraction result (pkg/extractor).  Image payloads are elided: they are
copied byte-for-byte into the save call and never influence control flow. -/
structure ExtractResult where
  title : String
  content : String
deriving Repr, DecidableEq

/-- A key binding is its list of key strings (bubbles/key, external). -/
def keyMatches (k : String) (binding : List String) : Bool := binding.contains k

/-- Go `KeyMap` (pkg/tui/keys.go).  `openKey`/`importKey` stand for the
source fields `Open`/`Import` (Lean keywords). -/
structure KeyMap where
  up : List String
  down : List String
  top : List String
  bottom : List String
  openKey : List String
  add : List String
  importKey : List String
  delete : List String
  archive : List String
  showArchive : List String
  search : List String
  reload : List String
  safariReload : List String
  quit : List String
  cancel : List String
  submit : List String
  help : List String
deriving Repr, DecidableEq

/-- Go `DefaultKeyMap` (pkg/tui/keys.go). -/
def defaultKeyMap : KeyMap :=
  { up := ["up", "k"]
    down := ["down", "j"]
    top := ["g", "home"]
    bottom := ["G", "end"]
    openKey := ["enter"]
    add := ["a"]
    importKey := ["i"]
    delete := ["d"]
    archive := ["x"]
    showArchive := ["X"]
    search := ["/"]
    reload := ["r"]
    safariReload := ["R"]
    quit := ["q", "ctrl+c"]
    cancel := ["esc"]
    submit := ["enter"]
    help := ["?"] }

/-- Commands issued back to the Bubble Tea runtime.  Each background
command later delivers exactly one `Msg`; the external-process bridge
(tmux pane reuse, direct exec, manifest editor) is collapsed into abstract
commands whose effects return only via their completion messages. -/
inductive Cmd where
  | quit
  | spinnerTick
  | inputBlink
  | extractArticle (url : String) (gen : Nat)
  | extractFromHTML (url : String) (gen : Nat)
  | gatherTabs
  | openSafari (url : String)
  | extractSafariHTML (url : String)
  | emitArticleDeleted (path : String)
  | importExtractAndSave (url : String)
  | execImportEditor
  | openEditor (path : String)
deriving Repr, DecidableEq

/-- Events processed by `Update`.  Results that Go reads from the
filesystem at handling time (the vim position file, the edited import
manifest) ride on their message as `Option String` payloads, `none`
standing for a read failure. -/
inductive Msg where
  | windowSize (width height : Int)
  | key (k : String)
  | spinnerTick
  | articleExtracted (result : ExtractResult) (gen : Nat)
  | extractionErr (emsg : String) (gen : Nat)
  | articleDeleted (id : String)
  | editorFinished (emsg : Option String) (posData : Option String)
  | safariOpened (ok : Bool) (emsg : String)
  | safariHTMLExtracted (url html : String) (emsg : Option String)
  | safariTabsGathered (totalTabs : Nat) (warnings : List String)
  | importEditorFinished (emsg : Option String) (fileContent : Option String)
  | importArticleResult (url title : String) (skipped : Bool) (emsg : Option String)
  | clearStatus
deriving Repr, DecidableEq

/-- Go `Model` (part_003).  The two text-input components are modelled by
their value plus focus/active flag; the spinner by a frame counter; the
tracked Safari window by a liveness flag. -/
structure Model where
  state : UIState
  store : Store
  width : Int
  height : Int
  safariURL : String
  safariWindow : Bool
  articles : List ArticleMeta
  cursor : Int
  scrollPos : Int
  showArchived : Bool
  urlValue : String
  urlFocused : Bool
  searchValue : String
  searchActive : Bool
  spinnerFrame : Nat
  pendingResult : Option ExtractResult
  overwritePath : String
  overwriteTitle : String
  pendingDeletePath : String
  pendingDeleteTitle : String
  importQueue : List String
  importTotal : Int
  importDone : Int
  importSkipped : Int
  importErrors : List String
  err : Option String
  statusMsg : String
  fetchGen : Nat
  tmuxPaneID : String
  suppressQuit : Bool
deriving Repr, DecidableEq

/-- Go `m.fetchGen++` on a uint64. -/
def genNext (g : Nat) : Nat := (g + 1) % (2 ^ 64)

/-- Go `%q` for the plain titles used in status messages (escaping of
special characters not modelled). -/
def goQuote (s : String) : String := "\"" ++ s ++ "\""

/-- The bubbles text input (external), reduced to its value: printable
single-rune keys append, backspace deletes, fluff keys are ignored. -/
def textInputUpdate (value k : String) : String :=
  if k = "backspace" then value.dropRight 1
  else if k.length = 1 then value ++ k
  else value

/-- Go `Model.helpGridHeight` (part_003). -/
def Model.helpGridHeight (m : Model) : Int :=
  if m.state = .help then 8 else 0

/-- Go `Model.calcVisibleItems`: list rows that fit on screen, at least 1
(Go division truncates toward zero, hence `Int.tdiv`). -/
def Model.calcVisibleItems (m : Model) : Int :=
  let listHeight := m.height - 12 - m.helpGridHeight
  let visibleItems := Int.tdiv listHeight 3
  if visibleItems < 1 then 1 else visibleItems

/-- Go `Model.applyArchiveFilter`. -/
def Model.applyArchiveFilter (m : Model) (articles : List ArticleMeta) : List ArticleMeta :=
  if m.showArchived then articles
  else articles.filter (fun a => !a.isArchived)

/-- The recurring Go statement
`m.scrollPos = clampScroll(m.cursor, m.scrollPos, m.calcVisibleItems(), len(m.articles))`. -/
def Model.reclampScroll (m : Model) : Model :=
  { m with scrollPos := clampScroll m.cursor m.scrollPos m.calcVisibleItems (m.articles.length : Int) }

/-- Go `Model.refreshArticles` (part_003). -/
def Model.refreshArticles (m : Model) : Model :=
  let arts :=
    if m.searchValue ≠ "" then m.applyArchiveFilter (m.store.search m.searchValue)
    else m.applyArchiveFilter m.store.list
  let m := { m with articles := arts }
  let m :=
    if m.cursor ≥ (arts.length : Int) then { m with cursor := max 0 ((arts.length : Int) - 1) }
    else m
  m.reclampScroll

/-- The article projection computed by `refreshArticles` (value form, used
to state equations about it). -/
def refreshedArticles (m : Model) : List ArticleMeta :=
  if m.searchValue ≠ "" then m.applyArchiveFilter (m.store.search m.searchValue)
  else m.applyArchiveFilter m.store.list

/-- The cursor after `refreshArticles` clamps it to the new list. -/
def refreshedCursor (m : Model) : Int :=
  if m.cursor ≥ ((refreshedArticles m).length : Int) then
    max 0 (((refreshedArticles m).length : Int) - 1)
  else m.cursor

/-- Go `Model.importSummary` (part_002). -/
def Model.importSummary (m : Model) : String :=
  let saved := m.importDone - m.importSkipped - (m.importErrors.length : Int)
  let parts := ["Import complete: " ++ toString saved ++ " saved"]
  let parts := if m.importSkipped > 0 then parts ++ [toString m.importSkipped ++ " skipped"] else parts
  let parts := if m.importErrors.length > 0 then parts ++ [toString m.importErrors.length ++ " failed"] else parts
  goJoin ", " parts

/-- Junk metadata used as the (unreachable) default of guarded indexing. -/
def emptyMeta : ArticleMeta :=
  { title := "", author := "", sourceURL := "", sourceDomain := ""
    savedAt := 0, tags := [], filePath := "", fileSize := 0, progress := 0 }

/-- Go `m.articles[m.cursor]`, total with a junk default; every caller
guards `len(m.articles) == 0 || m.cursor >= len(m.articles)` first. -/
def Model.selectedArticle (m : Model) : ArticleMeta :=
  (m.articles.get? m.cursor.toNat).getD emptyMeta

/-- The Go `for i, a := range m.articles` loops that park the cursor on the
article with the given file path (no change when absent). -/
def Model.cursorToFilePath (m : Model) (path : String) : Model :=
  match m.articles.findIdx? (fun ar => ar.filePath = path) with
  | some i => { m with cursor := (i : Int) }
  | none => m

/-- Same loop keyed by title (used after saves). -/
def Model.cursorToTitle (m : Model) (title : String) : Model :=
  match m.articles.findIdx? (fun ar => ar.title = title) with
  | some i => { m with cursor := (i : Int) }
  | none => m

/-- Go `Model.openSelectedArticle` (part_003): a no-op outside the list
bounds; otherwise the editor launch — whose tmux/direct branches depend
only on the external environment — is collapsed into one abstract
command carrying the absolute article path. -/
def Model.openSelectedArticle (m : Model) : Model × List Cmd :=
  if m.articles.length = 0 || m.cursor ≥ (m.articles.length : Int) then (m, [])
  else (m, [Cmd.openEditor (m.store.getFilePath m.selectedArticle.filePath)])

/-- Go `Model.savePositionFromFile` (part_003): parse
"absolutePath:lineNum" from the position file, persist the line as
progress for the matching article, refresh; any failure is silently
ignored. -/
def Model.savePositionFromFile (m : Model) (posData : Option String) : Model :=
  match posData with
  | none => m
  | some data =>
    match splitN2 (goTrimSpace data) (Char.ofNat 58) with
    | [absPath, lineStr] =>
      match lineStr.toInt? with
      | none => m
      | some lineNum =>
        if lineNum ≤ 0 then m
        else
          let m :=
            match m.store.list.find? (fun a => m.store.getFilePath a.filePath = absPath) with
            | some a => { m with store := m.store.updateProgress a.filePath lineNum }
            | none => m
          m.refreshArticles
    | _ => m

/-- Go `Model.archiveSelectedArticle` (part_003). -/
def Model.archiveSelectedArticle (m : Model) : Model × List Cmd :=
  if m.articles.length = 0 || m.cursor ≥ (m.articles.length : Int) then (m, [])
  else
    let article := m.selectedArticle
    let m :=
      if article.isArchived then
        let newTags := article.tags.filter (fun t => goToLower t ≠ "archived")
        { m with store := m.store.updateTags article.filePath newTags,
                 statusMsg := "Unarchived " ++ goQuote article.title }
      else
        { m with store := m.store.updateTags article.filePath (article.tags ++ ["archived"]),
                 statusMsg := "Archived " ++ goQuote article.title }
    let m := m.refreshArticles
    let m := m.cursorToFilePath article.filePath
    (m.reclampScroll, [])

/-- The URL string the submit handler validates and matches: the trimmed
input with "https://" prepended when no http:// or https:// scheme is
present (value form of the prepend step in `handleAddURLKeys`). -/
def normalizeURL (s : String) : String :=
  if goHasPrefix (goTrimSpace s) "http://" || goHasPrefix (goTrimSpace s) "https://" then
    goTrimSpace s
  else "https://" ++ goTrimSpace s

/-- Go `Model.handleAddURLKeys` (part_003). -/
def Model.handleAddURLKeys (m : Model) (k : String) : Model × List Cmd :=
  let km := defaultKeyMap
  if k = "ctrl+c" then
    if m.urlValue ≠ "" then ({ m with urlValue := "" }, [])
    else ({ m with state := .list }, [])
  else if keyMatches k km.cancel then ({ m with state := .list }, [])
  else if keyMatches k km.submit then
    let rawURL := goTrimSpace m.urlValue
    if rawURL = "" then
      ({ m with state := .list, err := some "URL cannot be empty" }, [])
    else
      let originalURL := rawURL
      let prepend := !(goHasPrefix rawURL "http://" || goHasPrefix rawURL "https://")
      let rawURL2 := if prepend then "https://" ++ rawURL else rawURL
      let m := if prepend then { m with urlValue := rawURL2 } else m
      if !validArticleURL rawURL2 then
        ({ m with err := some ("invalid URL: " ++ originalURL), state := .list }, [])
      else
        let url := rawURL2
        let m := { m with urlFocused := false }
        match m.store.list.find? (fun a => a.sourceURL = url) with
        | some a =>
          if a.isArchived then
            let newTags := a.tags.filter (fun t => goToLower t ≠ "archived")
            let m := { m with store := m.store.updateTags a.filePath newTags }
            let m := { m with state := .list, statusMsg := "Unarchived " ++ goQuote a.title }
            let m := m.refreshArticles
            let m := m.cursorToFilePath a.filePath
            (m.reclampScroll, [])
          else
            ({ m with state := .confirmOverwrite, overwritePath := a.filePath,
                      overwriteTitle := a.title }, [])
        | none =>
          let g := genNext m.fetchGen
          ({ m with state := .loading, fetchGen := g },
           [Cmd.spinnerTick, Cmd.extractArticle url g])
  else
    ({ m with urlValue := textInputUpdate m.urlValue k }, [])

/-- Go `Model.handleSearchKeys` (part_003). -/
def Model.handleSearchKeys (m : Model) (k : String) : Model × List Cmd :=
  let km := defaultKeyMap
  if k = "ctrl+c" then
    if m.searchValue ≠ "" then
      let m := { m with searchValue := "" }
      let m := m.refreshArticles
      ({ m with cursor := 0, scrollPos := 0 }, [])
    else ({ m with state := .list, searchActive := false }, [])
  else if keyMatches k km.cancel then
    let m := { m with state := .list, searchActive := false, searchValue := "" }
    let m := m.refreshArticles
    ({ m with cursor := 0, scrollPos := 0 }, [])
  else if keyMatches k km.submit then
    ({ m with state := .list, searchActive := false }, [])
  else
    let m :=
      if m.searchActive then { m with searchValue := textInputUpdate m.searchValue k } else m
    let arts := m.applyArchiveFilter (m.store.search m.searchValue)
    let m := { m with articles := arts }
    let m :=
      if m.cursor ≥ (arts.length : Int) then { m with cursor := max 0 ((arts.length : Int) - 1) }
      else m
    (m.reclampScroll, [])

/-- The force-save branch of `handleConfirmOverwriteKeys` (part_003 lines
663-686): overwrite, refresh, park the cursor on the saved title, open it. -/
def Model.confirmOverwriteYes (m : Model) (r : ExtractResult) : Model × List Cmd :=
  let m := { m with store := m.store.saveContentForce r.title r.content, state := .list }
  let m := m.refreshArticles
  let m := { m with err := none }
  let m := m.cursorToTitle r.title
  let m := m.reclampScroll
  ({ m with pendingResult := none }).openSelectedArticle

/-- Go `Model.handleConfirmOverwriteKeys` (part_003); the force-save disk
failure branch is not modelled. -/
def Model.handleConfirmOverwriteKeys (m : Model) (k : String) : Model × List Cmd :=
  if k = "y" || k = "Y" then
    match m.pendingResult with
    | some r => m.confirmOverwriteYes r
    | none =>
      let url := goTrimSpace m.urlValue
      let g := genNext m.fetchGen
      ({ m with state := .loading, fetchGen := g },
       [Cmd.spinnerTick, Cmd.extractArticle url g])
  else if k = "n" || k = "N" || k = "esc" || k = "ctrl+c" then
    ({ m with state := .list, suppressQuit := true, pendingResult := none,
              overwritePath := "", overwriteTitle := "" }, [])
  else (m, [])

/-- Go `Model.handleConfirmDeleteKeys` (part_003); the delete disk failure
branch is not modelled. -/
def Model.handleConfirmDeleteKeys (m : Model) (k : String) : Model × List Cmd :=
  if k = "y" || k = "Y" then
    let path := m.pendingDeletePath
    let m := { m with pendingDeletePath := "", pendingDeleteTitle := "", state := .list }
    let m := { m with store := m.store.delete path }
    (m, [Cmd.emitArticleDeleted path])
  else if k = "n" || k = "N" || k = "esc" || k = "ctrl+c" then
    ({ m with state := .list, suppressQuit := true, pendingDeletePath := "",
              pendingDeleteTitle := "" }, [])
  else (m, [])

/-- The toast-clear performed before the list-state key switch ("any
keypress in the list clears a previous status/error toast"). -/
def Model.clearToast (m : Model) : Model := { m with statusMsg := "", err := none }

/-! The list-state key switch of Go `handleKeyMsg` (part_003 lines
373-486), one definition per `case` arm; each is invoked on the
toast-cleared model. -/

/-- Cursor up (part_003 lines 377-382). -/
def Model.listUp (m : Model) : Model × List Cmd :=
  let m := if m.cursor > 0 then { m with cursor := m.cursor - 1 } else m
  (m.reclampScroll, [])

/-- Cursor down (part_003 lines 384-389). -/
def Model.listDown (m : Model) : Model × List Cmd :=
  let m :=
    if m.cursor < (m.articles.length : Int) - 1 then { m with cursor := m.cursor + 1 } else m
  (m.reclampScroll, [])

/-- Jump to top (part_003 lines 391-394). -/
def Model.listTop (m : Model) : Model × List Cmd :=
  ({ m with cursor := 0, scrollPos := 0 }, [])

/-- Jump to bottom (part_003 lines 396-401). -/
def Model.listBottom (m : Model) : Model × List Cmd :=
  let m :=
    if 0 < m.articles.length then { m with cursor := (m.articles.length : Int) - 1 } else m
  (m.reclampScroll, [])

/-- Enter AddURL (part_003 lines 406-412). -/
def Model.listAdd (m : Model) : Model × List Cmd :=
  ({ m with state := .addURL, urlValue := "", err := none, urlFocused := true },
   [Cmd.inputBlink])

/-- Start the Safari import (part_003 lines 414-417). -/
def Model.listImport (m : Model) : Model × List Cmd :=
  ({ m with state := .gatheringTabs, err := none }, [Cmd.spinnerTick, Cmd.gatherTabs])

/-- Ask to delete the selected article (part_003 lines 419-427). -/
def Model.listDelete (m : Model) : Model × List Cmd :=
  if m.articles.length = 0 || m.cursor ≥ (m.articles.length : Int) then (m, [])
  else
    let article := m.selectedArticle
    ({ m with pendingDeletePath := article.filePath, pendingDeleteTitle := article.title,
              state := .confirmDelete }, [])

/-- Toggle the archived view (part_003 lines 432-435). -/
def Model.listShowArchive (m : Model) : Model × List Cmd :=
  (({ m with showArchived := !m.showArchived }).refreshArticles, [])

/-- Enter Search (part_003 lines 437-445). -/
def Model.listSearch (m : Model) : Model × List Cmd :=
  let m := { m with state := .search, searchValue := "" }
  let m := m.refreshArticles
  ({ m with cursor := 0, scrollPos := 0, searchActive := true }, [Cmd.inputBlink])

/-- Re-fetch the selected article (part_003 lines 447-465). -/
def Model.listReload (m : Model) : Model × List Cmd :=
  if m.articles.length = 0 || m.cursor ≥ (m.articles.length : Int) then (m, [])
  else
    let article := m.selectedArticle
    if article.sourceURL = "" then
      ({ m with err := some ("no source URL for " ++ goQuote article.title) }, [])
    else
      let g := genNext m.fetchGen
      ({ m with urlValue := article.sourceURL, urlFocused := false,
                overwritePath := article.filePath, overwriteTitle := article.title,
                state := .loading, fetchGen := g },
       [Cmd.spinnerTick, Cmd.extractArticle article.sourceURL g])

/-- Show help (part_003 lines 467-469). -/
def Model.listHelp (m : Model) : Model × List Cmd := ({ m with state := .help }, [])

/-- Re-fetch via Safari (part_003 lines 471-485). -/
def Model.listSafariReload (m : Model) : Model × List Cmd :=
  if m.articles.length = 0 || m.cursor ≥ (m.articles.length : Int) then (m, [])
  else
    let article := m.selectedArticle
    if article.sourceURL = "" then
      ({ m with err := some ("no source URL for " ++ goQuote article.title) }, [])
    else
      ({ m with overwritePath := article.filePath, overwriteTitle := article.title,
                safariURL := article.sourceURL, urlValue := article.sourceURL,
                urlFocused := false, state := .safariWaiting },
       [Cmd.openSafari article.sourceURL])

/-- The shared tail of Go `handleKeyMsg` (part_003): clear the toast, then
the list-state key switch. -/
def Model.handleListKeys (m0 : Model) (k : String) : Model × List Cmd :=
  let km := defaultKeyMap
  let m := m0.clearToast
  if keyMatches k km.quit then (m, [Cmd.quit])
  else if keyMatches k km.up then m.listUp
  else if keyMatches k km.down then m.listDown
  else if keyMatches k km.top then m.listTop
  else if keyMatches k km.bottom then m.listBottom
  else if keyMatches k km.openKey then m.openSelectedArticle
  else if keyMatches k km.add then m.listAdd
  else if keyMatches k km.importKey then m.listImport
  else if keyMatches k km.delete then m.listDelete
  else if keyMatches k km.archive then m.archiveSelectedArticle
  else if keyMatches k km.showArchive then m.listShowArchive
  else if keyMatches k km.search then m.listSearch
  else if keyMatches k km.reload then m.listReload
  else if keyMatches k km.help then m.listHelp
  else if keyMatches k km.safariReload then m.listSafariReload
  else (m, [])

/-- Go `Model.handleKeyMsg` (part_003). -/
def Model.handleKeyMsg (m : Model) (k : String) : Model × List Cmd :=
  let km := defaultKeyMap
  match m.state with
  | .addURL => m.handleAddURLKeys k
  | .search => m.handleSearchKeys k
  | .loading =>
    if keyMatches k km.quit || keyMatches k km.cancel || k = "ctrl+c" then
      ({ m with state := .list, suppressQuit := true, fetchGen := genNext m.fetchGen }, [])
    else (m, [])
  | .gatheringTabs =>
    if keyMatches k km.quit || keyMatches k km.cancel || k = "ctrl+c" then
      ({ m with state := .list, suppressQuit := true, fetchGen := genNext m.fetchGen }, [])
    else (m, [])
  | .safariWaiting =>
    if keyMatches k km.submit then
      ({ m with state := .loading }, [Cmd.spinnerTick, Cmd.extractSafariHTML m.safariURL])
    else if keyMatches k km.cancel || keyMatches k km.quit || k = "ctrl+c" then
      ({ m with state := .list, suppressQuit := true, overwritePath := "",
                overwriteTitle := "", safariURL := "", safariWindow := false }, [])
    else (m, [])
  | .importing =>
    if keyMatches k km.cancel || keyMatches k km.quit || k = "ctrl+c" then
      let m := { m with importQueue := [], state := .list, suppressQuit := true }
      let m := m.refreshArticles
      ({ m with statusMsg := m.importSummary ++ " (cancelled)" }, [])
    else (m, [])
  | .confirmOverwrite => m.handleConfirmOverwriteKeys k
  | .confirmDelete => m.handleConfirmDeleteKeys k
  | .help =>
    if keyMatches k km.help || k = "?" then ({ m with state := .list }, [])
    else ({ m with state := .list }).handleListKeys k
  | .list => m.handleListKeys k

/-- Go `parseImportFile` (part_002), on the file content: non-comment,
non-blank lines are URLs. -/
def parseImportFile (content : String) : List String :=
  ((splitChar (Char.ofNat 10) content.data).map String.mk).filterMap (fun line =>
    let line := goTrimSpace line
    if line = "" || goHasPrefix line "#" then none else some line)

/-- Go `Model.handleSafariTabsGathered` (part_002): zero tabs with
warnings is an error, zero tabs without is neutral; otherwise the manifest
is written and handed to the editor (formatting elided — no theorem below
concerns the manifest text). -/
def Model.handleSafariTabsGathered (m : Model) (totalTabs : Nat) (warnings : List String) :
    Model × List Cmd :=
  if totalTabs = 0 && !warnings.isEmpty then
    ({ m with state := .list, err := some ("no Safari tabs found: " ++ warnings.headD "") }, [])
  else if totalTabs = 0 then
    ({ m with state := .list, statusMsg := "No Safari tabs found" }, [])
  else (m, [Cmd.execImportEditor])

/-- Go `Model.handleImportEditorFinished` (part_002). -/
def Model.handleImportEditorFinished (m : Model) (emsg : Option String)
    (fileContent : Option String) : Model × List Cmd :=
  match emsg with
  | some e => ({ m with state := .list, err := some ("editor: " ++ e) }, [])
  | none =>
    match fileContent with
    | none => ({ m with state := .list, err := some "reading import file" }, [])
    | some content =>
      match parseImportFile content with
      | [] => ({ m with state := .list, statusMsg := "No URLs to import" }, [])
      | u :: rest =>
        ({ m with importQueue := u :: rest, importTotal := ((u :: rest).length : Int),
                  importDone := 0, importSkipped := 0, importErrors := [],
                  state := .importing },
         [Cmd.spinnerTick, Cmd.importExtractAndSave u])

/-- Go `Model.handleImportArticleResult` (part_002). -/
def Model.handleImportArticleResult (m : Model) (url : String) (_title : String)
    (skipped : Bool) (emsg : Option String) : Model × List Cmd :=
  let m := { m with importQueue := m.importQueue.tail }
  let m :=
    match emsg with
    | some e => { m with importErrors := m.importErrors ++ [url ++ ": " ++ e] }
    | none => if skipped then { m with importSkipped := m.importSkipped + 1 } else m
  let m := { m with importDone := m.importDone + 1 }
  match m.importQueue with
  | [] =>
    let m := { m with state := .list }
    let m := m.refreshArticles
    ({ m with statusMsg := m.importSummary }, [])
  | u :: _ => (m, [Cmd.importExtractAndSave u])

/-- The successful-save tail of the extraction handler (part_003 lines
210-221): adopt the new store, return to List, refresh, park the cursor on
the saved title, and open it. -/
def Model.afterSave (m : Model) (store : Store) (title : String) : Model × List Cmd :=
  let m := { m with store := store, state := .list, pendingResult := none }
  let m := m.refreshArticles
  let m := { m with err := none }
  let m := m.cursorToTitle title
  m.reclampScroll.openSelectedArticle

/-- Go `Model.Update` (part_003).  Disk-failure branches of the store
calls are not modelled (see header); `store.Reload` is the identity
because cache and disk coincide in the model. -/
def Model.update (m0 : Model) (msg : Msg) : Model × List Cmd :=
  let m := { m0 with suppressQuit := false }
  match msg with
  | .windowSize w h =>
    let m := { m with width := w, height := h }
    (m.reclampScroll, [])
  | .key k => m.handleKeyMsg k
  | .spinnerTick =>
    if m.state = .loading || m.state = .gatheringTabs || m.state = .importing then
      ({ m with spinnerFrame := m.spinnerFrame + 1 }, [Cmd.spinnerTick])
    else (m, [])
  | .articleExtracted r g =>
    if g ≠ m.fetchGen then (m, [])
    else
      let m :=
        if m.overwritePath ≠ "" then
          { m with store := m.store.delete m.overwritePath, overwritePath := "",
                   overwriteTitle := "" }
        else m
      match m.store.saveContent r.title r.content with
      | .alreadyExists _ _ => ({ m with state := .confirmOverwrite, pendingResult := some r }, [])
      | .ok store => m.afterSave store r.title
  | .safariOpened ok emsg =>
    if !ok then
      ({ m with state := .list, err := some ("opening Safari: " ++ emsg), safariURL := "",
                safariWindow := false }, [])
    else ({ m with safariWindow := true }, [])
  | .safariHTMLExtracted url _html emsg =>
    match emsg with
    | some e => ({ m with state := .list, err := some e }, [])
    | none =>
      let g := genNext m.fetchGen
      ({ m with state := .loading, fetchGen := g }, [Cmd.spinnerTick, Cmd.extractFromHTML url g])
  | .extractionErr e g =>
    if g ≠ m.fetchGen then (m, [])
    else ({ m with state := .list, err := some e, statusMsg := "" }, [])
  | .articleDeleted _ =>
    let m := m.refreshArticles
    ({ m with statusMsg := "Article deleted" }, [])
  | .editorFinished emsg posData =>
    let m := { m with tmuxPaneID := "" }
    let m := match emsg with | some e => { m with err := some e } | none => m
    let m := m.savePositionFromFile posData
    (m.refreshArticles, [])
  | .safariTabsGathered total warnings => m.handleSafariTabsGathered total warnings
  | .importEditorFinished emsg fileContent => m.handleImportEditorFinished emsg fileContent
  | .importArticleResult url title skipped emsg =>
    m.handleImportArticleResult url title skipped emsg
  | .clearStatus => ({ m with statusMsg := "", err := none }, [])

/-- Go `New` (part_003): fresh model in list state with a fresh focused
URL input, article list refreshed from the store. -/
def initialModel (store : Store) : Model :=
  let m : Model :=
    { state := .list, store := store, width := 0, height := 0
      safariURL := "", safariWindow := false, articles := [], cursor := 0, scrollPos := 0
      showArchived := false, urlValue := "", urlFocused := true, searchValue := ""
      searchActive := false, spinnerFrame := 0, pendingResult := none, overwritePath := ""
      overwriteTitle := "", pendingDeletePath := "", pendingDeleteTitle := ""
      importQueue := [], importTotal := 0, importDone := 0, importSkipped := 0
      importErrors := [], err := none, statusMsg := "", fetchGen := 0, tmuxPaneID := ""
      suppressQuit := false }
  m.refreshArticles

/-- The single-consumer event loop (spec section 5): messages are processed
strictly one at a time in arrival order. -/
def runMsgs (m : Model) : List Msg → Model
  | [] => m
  | msg :: rest => runMsgs (m.update msg).1 rest

/-! ## Import pipeline environment (part_002 importExtractAndSave)

The background command `importExtractAndSave` extracts and saves one URL
and delivers exactly one `importArticleResultMsg`.  Its effect on the
store happens outside the event loop (the handlers re-read the store only
through `refreshArticles`) and is abstracted into an outcome oracle; no
theorem below depends on the store contents the batch writes. -/

/-- Classification of one extract+save, as produced by
`importExtractAndSave`: saved, skipped (duplicate slug), or failed with a
message. -/
inductive ImportOutcome where
  | saved (title : String)
  | skipped (title : String)
  | failed (emsg : String)
deriving Repr, DecidableEq

/-- The completion message `importExtractAndSave url` delivers under the
outcome oracle `oc` (part_002 lines 289-310): extraction failure carries
the error and no title; a slug collision carries `skipped`; success
carries the title. -/
def importResultMsg (oc : String → ImportOutcome) (url : String) : Msg :=
  match oc url with
  | .saved t => Msg.importArticleResult url t false none
  | .skipped t => Msg.importArticleResult url t true none
  | .failed e => Msg.importArticleResult url "" false (some e)

/-- URLs classified saved under the oracle. -/
def countSaved (oc : String → ImportOutcome) (urls : List String) : Nat :=
  (urls.filter (fun u => match oc u with | .saved _ => true | _ => false)).length

/-- URLs classified skipped under the oracle. -/
def countSkipped (oc : String → ImportOutcome) (urls : List String) : Nat :=
  (urls.filter (fun u => match oc u with | .skipped _ => true | _ => false)).length

/-- URLs classified failed under the oracle. -/
def countFailed (oc : String → ImportOutcome) (urls : List String) : Nat :=
  (urls.filter (fun u => match oc u with | .failed _ => true | _ => false)).length

/-- The recorded failure lines, in queue order ("url: message", part_002
line 322). -/
def importFailures (oc : String → ImportOutcome) (urls : List String) : List String :=
  urls.filterMap (fun u =>
    match oc u with
    | .failed e => some (u ++ ": " ++ e)
    | _ => none)

/-- Value form of `importSummary` over raw tallies (`failed` is the length
of the recorded failure list). -/
def importSummaryOf (done skipped : Int) (failed : Nat) : String :=
  let saved := done - skipped - (failed : Int)
  let parts := ["Import complete: " ++ toString saved ++ " saved"]
  let parts := if skipped > 0 then parts ++ [toString skipped ++ " skipped"] else parts
  let parts := if failed > 0 then parts ++ [toString failed ++ " failed"] else parts
  goJoin ", " parts

/-- Drive the import loop under the outcome oracle: deliver the completion
for the queue head and continue; each completion's handler dispatches the
next extract+save only after the previous result is processed (the loop
refuses to run past an empty queue). -/
def runImportQueue (oc : String → ImportOutcome) (m : Model) : Nat → Model
  | 0 => m
  | fuel + 1 =>
    match m.importQueue with
    | [] => m
    | u :: _ => runImportQueue oc ((m.update (importResultMsg oc u)).1) fuel

/-- Cursor safety: nonnegative, below the list length when the list is
non-empty, pinned to 0 when it is empty. -/
def cursorInBounds (m : Model) : Prop :=
  0 ≤ m.cursor ∧ m.cursor < max 1 (m.articles.length : Int)

/-- The viewport relation of the claim: the scroll offset is within
[0, max 0 (N − V)] and, when the cursor is a valid index, the cursor lies
inside the visible window. -/
def scrollInView (m : Model) : Prop :=
  (0 ≤ m.scrollPos ∧ m.scrollPos ≤ max 0 ((m.articles.length : Int) - m.calcVisibleItems)) ∧
  (0 ≤ m.cursor → m.cursor < (m.articles.length : Int) →
    m.scrollPos ≤ m.cursor ∧ m.cursor < m.scrollPos + m.calcVisibleItems)

/-! ## Concrete fixtures used by witnesses and counterexamples -/

/-- An archived article fixture. -/
def sampleArchived : ArticleMeta :=
  { title := "My Post", author := "Ann", sourceURL := "https://example.com/a"
    sourceDomain := "example.com", savedAt := 5, tags := ["tech", "Archived"]
    filePath := "articles/my-post/index.md", fileSize := 10, progress := 0 }

/-- An active (non-archived) article fixture whose slug is "dup". -/
def sampleActive : ArticleMeta :=
  { title := "Dup", author := "", sourceURL := "https://old.com/p", sourceDomain := "old.com"
    savedAt := 3, tags := [], filePath := "articles/dup/index.md", fileSize := 4, progress := 0 }

/-- A store with no articles. -/
def emptyStore : Store := { basePath := "/data", articles := [] }

/-- A store holding one active and one archived article. -/
def sampleStore : Store := { basePath := "/data", articles := [sampleActive, sampleArchived] }

/-- Session reached by: add URL, type "x.y", submit (fetch generation 1),
cancel (generation 2, suppressQuit armed).  The fetch launched at
generation 1 is now stale. -/
def staleModel : Model :=
  runMsgs (initialModel emptyStore)
    [Msg.key "a", Msg.key "x", Msg.key ".", Msg.key "y", Msg.key "enter", Msg.key "esc"]

/-- A session in AddURL with a partially typed value. -/
def addURLFixture : Model :=
  { initialModel sampleStore with
      state := UIState.addURL
      urlValue := "x" }

/-- A session in Search with an active non-empty query. -/
def searchFixture : Model :=
  { initialModel sampleStore with
      state := UIState.search
      searchValue := "t"
      searchActive := true }

/-- Outcome oracle for the three-URL scenario: two saves, one extraction
failure. -/
def importOracle : String → ImportOutcome := fun u =>
  if u = "http://c.com/z" then .failed "boom"
  else if u = "http://a.com/x" then .saved "A"
  else .saved "B"

/-- The session right after the edited manifest with three URLs is read
back. -/
def importEntryModel : Model :=
  (({ initialModel emptyStore with
      state := UIState.gatheringTabs } : Model).handleImportEditorFinished none
    (some "http://a.com/x\nhttp://b.com/y\nhttp://c.com/z\n")).1

/-- The final session after the three-URL batch runs to completion. -/
def importRunModel : Model := runImportQueue importOracle importEntryModel 3

/-- A session in AddURL whose input (scheme-prepended) matches the saved
archived article's source URL. -/
def unarchiveFixture : Model :=
  { initialModel sampleStore with
      state := UIState.addURL
      urlValue := "example.com/a" }

/-- A session mid-import: one URL still queued, one already completed. -/
def importingFixture : Model :=
  { initialModel emptyStore with
      state := UIState.importing
      importQueue := ["http://x.co/2"]
      importTotal := 2
      importDone := 1 }

/-- Session reached by adding and submitting "nw.co": a fetch is in
flight at generation 1 with no pre-fetch overwrite target. -/
def fetchingFixture : Model :=
  runMsgs (initialModel sampleStore)
    [Msg.key "a", Msg.key "n", Msg.key "w", Msg.key ".", Msg.key "c", Msg.key "o",
     Msg.key "enter"]

/-- Session after that fetch returns a result titled "Dup", colliding with
the saved slug "dup": the machine is in ConfirmOverwrite holding the
result as pending. -/
def collideModel : Model :=
  (fetchingFixture.update (Msg.articleExtracted ⟨"Dup", "body"⟩ 1)).1

/-! ## Helper lemmas -/

theorem clampScroll_bounds (cursor scrollPos visibleItems totalItems : Int) :
    0 ≤ clampScroll cursor scrollPos visibleItems totalItems ∧
    clampScroll cursor scrollPos visibleItems totalItems ≤ max 0 (totalItems - visibleItems) := by
  simp only [clampScroll]
  split_ifs <;> omega

theorem clampScroll_window (cursor scrollPos visibleItems totalItems : Int)
    (hV : 1 ≤ visibleItems) (hc0 : 0 ≤ cursor) (hcN : cursor < totalItems) :
    clampScroll cursor scrollPos visibleItems totalItems ≤ cursor ∧
    cursor < clampScroll cursor scrollPos visibleItems totalItems + visibleItems := by
  simp only [clampScroll]
  split_ifs <;> omega

theorem calcVisibleItems_pos (m : Model) : 1 ≤ m.calcVisibleItems := by
  simp only [Model.calcVisibleItems]
  split_ifs with h
  · omega
  · omega

theorem reclampScroll_scrollInView (m : Model) : scrollInView m.reclampScroll := by
  have hV := calcVisibleItems_pos m
  refine ⟨?_, ?_⟩
  · exact clampScroll_bounds m.cursor m.scrollPos m.calcVisibleItems (m.articles.length : Int)
  · intro h0 hN
    exact clampScroll_window m.cursor m.scrollPos m.calcVisibleItems (m.articles.length : Int)
      hV h0 hN

theorem update_key (m : Model) (k : String) :
    m.update (Msg.key k) = ({ m with suppressQuit := false }).handleKeyMsg k := rfl

theorem handleKeyMsg_of_list (m : Model) (k : String) (h : m.state = .list) :
    m.handleKeyMsg k = m.handleListKeys k := by
  unfold Model.handleKeyMsg
  rw [h]

theorem refreshArticles_eq (m : Model) :
    m.refreshArticles = { m with
      articles := refreshedArticles m,
      cursor := refreshedCursor m,
      scrollPos := clampScroll (refreshedCursor m) m.scrollPos m.calcVisibleItems
        ((refreshedArticles m).length : Int) } := by
  simp only [Model.refreshArticles, Model.reclampScroll, refreshedArticles, refreshedCursor]
  split_ifs <;> rfl

@[simp] theorem refreshArticles_state (m : Model) :
    m.refreshArticles.state = m.state := by rw [refreshArticles_eq]

@[simp] theorem refreshArticles_store (m : Model) :
    m.refreshArticles.store = m.store := by rw [refreshArticles_eq]

@[simp] theorem refreshArticles_statusMsg (m : Model) :
    m.refreshArticles.statusMsg = m.statusMsg := by rw [refreshArticles_eq]

@[simp] theorem refreshArticles_err (m : Model) :
    m.refreshArticles.err = m.err := by rw [refreshArticles_eq]

@[simp] theorem refreshArticles_importQueue (m : Model) :
    m.refreshArticles.importQueue = m.importQueue := by rw [refreshArticles_eq]

@[simp] theorem refreshArticles_importTotal (m : Model) :
    m.refreshArticles.importTotal = m.importTotal := by rw [refreshArticles_eq]

@[simp] theorem refreshArticles_importDone (m : Model) :
    m.refreshArticles.importDone = m.importDone := by rw [refreshArticles_eq]

@[simp] theorem refreshArticles_importSkipped (m : Model) :
    m.refreshArticles.importSkipped = m.importSkipped := by rw [refreshArticles_eq]

@[simp] theorem refreshArticles_importErrors (m : Model) :
    m.refreshArticles.importErrors = m.importErrors := by rw [refreshArticles_eq]

@[simp] theorem refreshArticles_pendingResult (m : Model) :
    m.refreshArticles.pendingResult = m.pendingResult := by rw [refreshArticles_eq]

@[simp] theorem refreshArticles_overwritePath (m : Model) :
    m.refreshArticles.overwritePath = m.overwritePath := by rw [refreshArticles_eq]

@[simp] theorem refreshArticles_overwriteTitle (m : Model) :
    m.refreshArticles.overwriteTitle = m.overwriteTitle := by rw [refreshArticles_eq]

@[simp] theorem refreshArticles_urlValue (m : Model) :
    m.refreshArticles.urlValue = m.urlValue := by rw [refreshArticles_eq]

@[simp] theorem refreshArticles_searchValue (m : Model) :
    m.refreshArticles.searchValue = m.searchValue := by rw [refreshArticles_eq]

@[simp] theorem refreshArticles_searchActive (m : Model) :
    m.refreshArticles.searchActive = m.searchActive := by rw [refreshArticles_eq]

@[simp] theorem refreshArticles_suppressQuit (m : Model) :
    m.refreshArticles.suppressQuit = m.suppressQuit := by rw [refreshArticles_eq]

@[simp] theorem refreshArticles_fetchGen (m : Model) :
    m.refreshArticles.fetchGen = m.fetchGen := by rw [refreshArticles_eq]

@[simp] theorem refreshArticles_showArchived (m : Model) :
    m.refreshArticles.showArchived = m.showArchived := by rw [refreshArticles_eq]

@[simp] theorem cursorToFilePath_state (m : Model) (s : String) :
    (m.cursorToFilePath s).state = m.state := by
  unfold Model.cursorToFilePath
  split <;> rfl

@[simp] theorem cursorToFilePath_store (m : Model) (s : String) :
    (m.cursorToFilePath s).store = m.store := by
  unfold Model.cursorToFilePath
  split <;> rfl

@[simp] theorem cursorToFilePath_articles (m : Model) (s : String) :
    (m.cursorToFilePath s).articles = m.articles := by
  unfold Model.cursorToFilePath
  split <;> rfl

@[simp] theorem cursorToFilePath_statusMsg (m : Model) (s : String) :
    (m.cursorToFilePath s).statusMsg = m.statusMsg := by
  unfold Model.cursorToFilePath
  split <;> rfl

@[simp] theorem cursorToFilePath_err (m : Model) (s : String) :
    (m.cursorToFilePath s).err = m.err := by
  unfold Model.cursorToFilePath
  split <;> rfl

@[simp] theorem cursorToFilePath_importQueue (m : Model) (s : String) :
    (m.cursorToFilePath s).importQueue = m.importQueue := by
  unfold Model.cursorToFilePath
  split <;> rfl

@[simp] theorem cursorToFilePath_importTotal (m : Model) (s : String) :
    (m.cursorToFilePath s).importTotal = m.importTotal := by
  unfold Model.cursorToFilePath
  split <;> rfl

@[simp] theorem cursorToFilePath_importDone (m : Model) (s : String) :
    (m.cursorToFilePath s).importDone = m.importDone := by
  unfold Model.cursorToFilePath
  split <;> rfl

@[simp] theorem cursorToFilePath_importSkipped (m : Model) (s : String) :
    (m.cursorToFilePath s).importSkipped = m.importSkipped := by
  unfold Model.cursorToFilePath
  split <;> rfl

@[simp] theorem cursorToFilePath_importErrors (m : Model) (s : String) :
    (m.cursorToFilePath s).importErrors = m.importErrors := by
  unfold Model.cursorToFilePath
  split <;> rfl

@[simp] theorem cursorToFilePath_pendingResult (m : Model) (s : String) :
    (m.cursorToFilePath s).pendingResult = m.pendingResult := by
  unfold Model.cursorToFilePath
  split <;> rfl

@[simp] theorem cursorToFilePath_overwritePath (m : Model) (s : String) :
    (m.cursorToFilePath s).overwritePath = m.overwritePath := by
  unfold Model.cursorToFilePath
  split <;> rfl

@[simp] theorem cursorToFilePath_overwriteTitle (m : Model) (s : String) :
    (m.cursorToFilePath s).overwriteTitle = m.overwriteTitle := by
  unfold Model.cursorToFilePath
  split <;> rfl

@[simp] theorem cursorToFilePath_urlValue (m : Model) (s : String) :
    (m.cursorToFilePath s).urlValue = m.urlValue := by
  unfold Model.cursorToFilePath
  split <;> rfl

@[simp] theorem cursorToFilePath_searchValue (m : Model) (s : String) :
    (m.cursorToFilePath s).searchValue = m.searchValue := by
  unfold Model.cursorToFilePath
  split <;> rfl

@[simp] theorem cursorToFilePath_searchActive (m : Model) (s : String) :
    (m.cursorToFilePath s).searchActive = m.searchActive := by
  unfold Model.cursorToFilePath
  split <;> rfl

@[simp] theorem cursorToFilePath_suppressQuit (m : Model) (s : String) :
    (m.cursorToFilePath s).suppressQuit = m.suppressQuit := by
  unfold Model.cursorToFilePath
  split <;> rfl

@[simp] theorem cursorToFilePath_fetchGen (m : Model) (s : String) :
    (m.cursorToFilePath s).fetchGen = m.fetchGen := by
  unfold Model.cursorToFilePath
  split <;> rfl

@[simp] theorem cursorToFilePath_showArchived (m : Model) (s : String) :
    (m.cursorToFilePath s).showArchived = m.showArchived := by
  unfold Model.cursorToFilePath
  split <;> rfl

@[simp] theorem cursorToTitle_state (m : Model) (s : String) :
    (m.cursorToTitle s).state = m.state := by
  unfold Model.cursorToTitle
  split <;> rfl

@[simp] theorem cursorToTitle_store (m : Model) (s : String) :
    (m.cursorToTitle s).store = m.store := by
  unfold Model.cursorToTitle
  split <;> rfl

@[simp] theorem cursorToTitle_articles (m : Model) (s : String) :
    (m.cursorToTitle s).articles = m.articles := by
  unfold Model.cursorToTitle
  split <;> rfl

@[simp] theorem cursorToTitle_statusMsg (m : Model) (s : String) :
    (m.cursorToTitle s).statusMsg = m.statusMsg := by
  unfold Model.cursorToTitle
  split <;> rfl

@[simp] theorem cursorToTitle_err (m : Model) (s : String) :
    (m.cursorToTitle s).err = m.err := by
  unfold Model.cursorToTitle
  split <;> rfl

@[simp] theorem cursorToTitle_importQueue (m : Model) (s : String) :
    (m.cursorToTitle s).importQueue = m.importQueue := by
  unfold Model.cursorToTitle
  split <;> rfl

@[simp] theorem cursorToTitle_importTotal (m : Model) (s : String) :
    (m.cursorToTitle s).importTotal = m.importTotal := by
  unfold Model.cursorToTitle
  split <;> rfl

@[simp] theorem cursorToTitle_importDone (m : Model) (s : String) :
    (m.cursorToTitle s).importDone = m.importDone := by
  unfold Model.cursorToTitle
  split <;> rfl

@[simp] theorem cursorToTitle_importSkipped (m : Model) (s : String) :
    (m.cursorToTitle s).importSkipped = m.importSkipped := by
  unfold Model.cursorToTitle
  split <;> rfl

@[simp] theorem cursorToTitle_importErrors (m : Model) (s : String) :
    (m.cursorToTitle s).importErrors = m.importErrors := by
  unfold Model.cursorToTitle
  split <;> rfl

@[simp] theorem cursorToTitle_pendingResult (m : Model) (s : String) :
    (m.cursorToTitle s).pendingResult = m.pendingResult := by
  unfold Model.cursorToTitle
  split <;> rfl

@[simp] theorem cursorToTitle_overwritePath (m : Model) (s : String) :
    (m.cursorToTitle s).overwritePath = m.overwritePath := by
  unfold Model.cursorToTitle
  split <;> rfl

@[simp] theorem cursorToTitle_overwriteTitle (m : Model) (s : String) :
    (m.cursorToTitle s).overwriteTitle = m.overwriteTitle := by
  unfold Model.cursorToTitle
  split <;> rfl

@[simp] theorem cursorToTitle_urlValue (m : Model) (s : String) :
    (m.cursorToTitle s).urlValue = m.urlValue := by
  unfold Model.cursorToTitle
  split <;> rfl

@[simp] theorem cursorToTitle_searchValue (m : Model) (s : String) :
    (m.cursorToTitle s).searchValue = m.searchValue := by
  unfold Model.cursorToTitle
  split <;> rfl

@[simp] theorem cursorToTitle_searchActive (m : Model) (s : String) :
    (m.cursorToTitle s).searchActive = m.searchActive := by
  unfold Model.cursorToTitle
  split <;> rfl

@[simp] theorem cursorToTitle_suppressQuit (m : Model) (s : String) :
    (m.cursorToTitle s).suppressQuit = m.suppressQuit := by
  unfold Model.cursorToTitle
  split <;> rfl

@[simp] theorem cursorToTitle_fetchGen (m : Model) (s : String) :
    (m.cursorToTitle s).fetchGen = m.fetchGen := by
  unfold Model.cursorToTitle
  split <;> rfl

@[simp] theorem cursorToTitle_showArchived (m : Model) (s : String) :
    (m.cursorToTitle s).showArchived = m.showArchived := by
  unfold Model.cursorToTitle
  split <;> rfl

@[simp] theorem reclampScroll_state (m : Model) :
    m.reclampScroll.state = m.state := rfl

@[simp] theorem reclampScroll_store (m : Model) :
    m.reclampScroll.store = m.store := rfl

@[simp] theorem reclampScroll_articles (m : Model) :
    m.reclampScroll.articles = m.articles := rfl

@[simp] theorem reclampScroll_cursor (m : Model) :
    m.reclampScroll.cursor = m.cursor := rfl

@[simp] theorem reclampScroll_statusMsg (m : Model) :
    m.reclampScroll.statusMsg = m.statusMsg := rfl

@[simp] theorem reclampScroll_err (m : Model) :
    m.reclampScroll.err = m.err := rfl

@[simp] theorem reclampScroll_pendingResult (m : Model) :
    m.reclampScroll.pendingResult = m.pendingResult := rfl

@[simp] theorem reclampScroll_suppressQuit (m : Model) :
    m.reclampScroll.suppressQuit = m.suppressQuit := rfl

@[simp] theorem reclampScroll_fetchGen (m : Model) :
    m.reclampScroll.fetchGen = m.fetchGen := rfl

@[simp] theorem reclampScroll_importQueue (m : Model) :
    m.reclampScroll.importQueue = m.importQueue := rfl

@[simp] theorem reclampScroll_importDone (m : Model) :
    m.reclampScroll.importDone = m.importDone := rfl

@[simp] theorem reclampScroll_importSkipped (m : Model) :
    m.reclampScroll.importSkipped = m.importSkipped := rfl

@[simp] theorem reclampScroll_importErrors (m : Model) :
    m.reclampScroll.importErrors = m.importErrors := rfl

@[simp] theorem reclampScroll_importTotal (m : Model) :
    m.reclampScroll.importTotal = m.importTotal := rfl

@[simp] theorem openSelectedArticle_model (m : Model) :
    m.openSelectedArticle.1 = m := by
  unfold Model.openSelectedArticle
  split <;> rfl

theorem handleKeyMsg_of_addURL (m : Model) (k : String) (h : m.state = .addURL) :
    m.handleKeyMsg k = m.handleAddURLKeys k := by
  unfold Model.handleKeyMsg
  rw [h]

theorem handleKeyMsg_of_search (m : Model) (k : String) (h : m.state = .search) :
    m.handleKeyMsg k = m.handleSearchKeys k := by
  unfold Model.handleKeyMsg
  rw [h]

theorem handleKeyMsg_of_confirmOverwrite (m : Model) (k : String)
    (h : m.state = .confirmOverwrite) :
    m.handleKeyMsg k = m.handleConfirmOverwriteKeys k := by
  unfold Model.handleKeyMsg
  rw [h]

theorem scrollInView_zero (m : Model) (hc : m.cursor = 0) (hs : m.scrollPos = 0) :
    scrollInView m := by
  have hV := calcVisibleItems_pos m
  unfold scrollInView
  rw [hc, hs]
  exact ⟨⟨le_refl 0, le_max_left 0 _⟩, fun _ _ => ⟨le_refl 0, by omega⟩⟩

/-! ## Claim C5 -/

/-- C5: the scroll offset returned by `clampScroll` always satisfies
0 ≤ S ≤ max 0 (N − V), and when 0 ≤ C < N also S ≤ C < S + V (the function
is, definitionally, the stated adjustment rule: pull S down to C, push it
to C − V + 1 when the cursor passed the window, then clamp); the visible
capacity is always at least 1; and after any navigation key processed in
List state the resulting model's scroll offset stands in that relation to
its cursor, capacity and article count. -/
theorem claim_C5_viewport_scroll_invariant :
    (∀ C S V N : Int, 1 ≤ V →
        (0 ≤ clampScroll C S V N ∧ clampScroll C S V N ≤ max 0 (N - V)) ∧
        (0 ≤ C → C < N → clampScroll C S V N ≤ C ∧ C < clampScroll C S V N + V)) ∧
    (∀ m : Model, 1 ≤ m.calcVisibleItems) ∧
    (∀ (m : Model) (k : String), m.state = UIState.list →
        (keyMatches k defaultKeyMap.up || keyMatches k defaultKeyMap.down ||
         keyMatches k defaultKeyMap.top || keyMatches k defaultKeyMap.bottom) = true →
        scrollInView (m.update (Msg.key k)).1) := by
  refine ⟨?_, calcVisibleItems_pos, ?_⟩
  · intro C S V N hV
    exact ⟨clampScroll_bounds C S V N, fun h0 hN => clampScroll_window C S V N hV h0 hN⟩
  · intro m k hstate hk
    have hks : k = "up" ∨ k = "k" ∨ k = "down" ∨ k = "j" ∨
        k = "g" ∨ k = "home" ∨ k = "G" ∨ k = "end" := by
      simp [keyMatches, defaultKeyMap, List.contains] at hk
      tauto
    rcases hks with h | h | h | h | h | h | h | h <;> subst h <;>
      rw [update_key, handleKeyMsg_of_list { m with suppressQuit := false } _ hstate] <;>
      simp only [Model.handleListKeys, keyMatches, defaultKeyMap] <;>
      simp [List.contains] <;>
      first
        | (apply reclampScroll_scrollInView)
        | (apply scrollInView_zero <;> rfl)

/-- Witness for C5: concrete instance at V = 3, C = 5, N = 10, S = 0, and a
"j" (cursor down) key on the initial model. -/
theorem claim_C5_witness :
    ((0 ≤ clampScroll 5 0 3 10 ∧ clampScroll 5 0 3 10 ≤ max 0 (10 - 3)) ∧
      (clampScroll 5 0 3 10 ≤ 5 ∧ (5 : Int) < clampScroll 5 0 3 10 + 3)) ∧
    1 ≤ (initialModel emptyStore).calcVisibleItems ∧
    scrollInView ((initialModel emptyStore).update (Msg.key "j")).1 := by
  have h := claim_C5_viewport_scroll_invariant
  exact ⟨⟨(h.1 5 0 3 10 (by decide)).1, (h.1 5 0 3 10 (by decide)).2 (by decide) (by decide)⟩,
    h.2.1 (initialModel emptyStore),
    h.2.2 (initialModel emptyStore) "j" (by decide) (by decide)⟩

/-! ## Claim C1 -/

/-- C1 (amended): a fetch completion event — successful extraction or
extraction error — whose generation differs from the current fetch
generation dispatches no command and changes no model field except the
one-shot `suppressQuit` flag, which every update pass unconditionally
clears. -/
theorem claim_C1_stale_completion_dropped :
    ∀ (m : Model) (r : ExtractResult) (e : String) (g : Nat), g ≠ m.fetchGen →
      m.update (Msg.articleExtracted r g) = ({ m with suppressQuit := false }, []) ∧
      m.update (Msg.extractionErr e g) = ({ m with suppressQuit := false }, []) := by
  intro m r e g h
  constructor <;> simp [Model.update, h]

/-- Witness for C1 at the reachable post-cancel session and a stale
generation-1 completion. -/
theorem claim_C1_witness :
    (1 : Nat) ≠ staleModel.fetchGen ∧
    staleModel.update (Msg.articleExtracted ⟨"T", "C"⟩ 1) =
      ({ staleModel with suppressQuit := false }, []) := by
  have h := claim_C1_stale_completion_dropped staleModel ⟨"T", "C"⟩ "x" 1 (by decide)
  exact ⟨by decide, h.1⟩

/-- Counterexample to C1 as stated: in the session reached by starting a
fetch and cancelling it (suppressQuit armed, generation 2), processing the
stale generation-1 completion does change the model — the suppressQuit
flag is cleared, observably re-arming ctrl+c quitting. -/
theorem claim_C1_counterexample :
    (1 : Nat) ≠ staleModel.fetchGen ∧
    (staleModel.update (Msg.articleExtracted ⟨"T", "C"⟩ 1)).1 ≠ staleModel := by
  refine ⟨by decide, fun h => ?_⟩
  have h2 := congrArg Model.suppressQuit h
  revert h2
  decide

/-! ## Claim C2 -/

/-- C2: submitting in AddURL with an empty trimmed input, or with an input
that — after prepending "https://" when no http:// or https:// scheme is
present — fails the parse-with-a-dotted-host validation, dispatches no
command (in particular no fetch) and returns the machine to List with an
error set. -/
theorem claim_C2_addurl_validation :
    ∀ m : Model, m.state = UIState.addURL →
      (goTrimSpace m.urlValue = "" ∨
        validArticleURL
          (if goHasPrefix (goTrimSpace m.urlValue) "http://" ||
              goHasPrefix (goTrimSpace m.urlValue) "https://"
           then goTrimSpace m.urlValue
           else "https://" ++ goTrimSpace m.urlValue) = false) →
      (m.update (Msg.key "enter")).1.state = UIState.list ∧
      (m.update (Msg.key "enter")).1.err.isSome = true ∧
      (m.update (Msg.key "enter")).2 = [] := by
  intro m hstate hOr
  rw [update_key, handleKeyMsg_of_addURL { m with suppressQuit := false } _ hstate]
  simp only [Model.handleAddURLKeys, keyMatches, defaultKeyMap]
  simp only [List.contains]
  by_cases hE : goTrimSpace m.urlValue = ""
  · simp [hE]
  · have hV : validArticleURL
        (if goHasPrefix (goTrimSpace m.urlValue) "http://" ||
            goHasPrefix (goTrimSpace m.urlValue) "https://"
         then goTrimSpace m.urlValue
         else "https://" ++ goTrimSpace m.urlValue) = false := by
      rcases hOr with h | h
      · exact absurd h hE
      · exact h
    by_cases hp : (goHasPrefix (goTrimSpace m.urlValue) "http://" ||
        goHasPrefix (goTrimSpace m.urlValue) "https://") = true
    · rw [if_pos hp] at hV
      simp [hE, hp, hV]
    · rw [if_neg hp] at hV
      simp only [Bool.not_eq_true] at hp
      simp [hE, hp, hV]

/-- Witness for C2: submitting an empty URL input. -/
theorem claim_C2_witness :
    (({ initialModel emptyStore with state := UIState.addURL }).update (Msg.key "enter")).1.state
        = UIState.list ∧
    (({ initialModel emptyStore with state := UIState.addURL }).update
        (Msg.key "enter")).1.err.isSome = true ∧
    (({ initialModel emptyStore with state := UIState.addURL }).update (Msg.key "enter")).2
        = [] :=
  claim_C2_addurl_validation { initialModel emptyStore with state := UIState.addURL }
    (by decide) (Or.inl (by decide))

/-! ## Claim C3 -/

/-- C3: a cancel key (esc, q or ctrl+c) processed in the Importing state
with a non-empty remaining queue moves the machine to List, empties the
queue, leaves the completed, skipped and failed tallies unchanged, sets
the status message to the import summary with " (cancelled)" appended, and
dispatches nothing. -/
theorem claim_C3_import_cancel :
    ∀ (m : Model) (k : String), m.state = UIState.importing →
      0 < m.importQueue.length →
      (keyMatches k defaultKeyMap.cancel || keyMatches k defaultKeyMap.quit ||
        k = "ctrl+c") = true →
      (m.update (Msg.key k)).1.state = UIState.list ∧
      (m.update (Msg.key k)).1.importQueue = [] ∧
      (m.update (Msg.key k)).1.importDone = m.importDone ∧
      (m.update (Msg.key k)).1.importSkipped = m.importSkipped ∧
      (m.update (Msg.key k)).1.importErrors = m.importErrors ∧
      (m.update (Msg.key k)).1.statusMsg = m.importSummary ++ " (cancelled)" ∧
      (m.update (Msg.key k)).2 = [] := by
  intro m k hstate _hq hk
  rw [update_key]
  unfold Model.handleKeyMsg
  rw [show ({ m with suppressQuit := false } : Model).state = UIState.importing from hstate]
  simp only []
  rw [if_pos hk, refreshArticles_eq]
  simp [Model.importSummary, refreshedArticles, refreshedCursor]

/-- Witness for C3: cancelling with one URL still queued and one item
already completed. -/
theorem claim_C3_witness :
    (importingFixture.update (Msg.key "esc")).1.state = UIState.list ∧
    (importingFixture.update (Msg.key "esc")).1.importQueue = [] ∧
    (importingFixture.update (Msg.key "esc")).1.importDone = 1 ∧
    (importingFixture.update (Msg.key "esc")).1.statusMsg =
      "Import complete: 1 saved (cancelled)" := by
  have h := claim_C3_import_cancel importingFixture "esc" (by decide) (by decide) (by decide)
  refine ⟨h.1, h.2.1, h.2.2.1, ?_⟩
  rw [h.2.2.2.2.2.1]
  decide

/-! ## Claim C8 -/

/-- C8: in the Help state every keystroke leaves Help — the help key
itself only closes the overlay — and any other key is processed exactly as
the same session in List state would process it, so a keystroke that maps
to a List action has that action applied in the same step. -/
theorem claim_C8_help_never_swallows_keys :
    ∀ (m : Model) (k : String), m.state = UIState.help →
      (k = "?" →
        m.update (Msg.key k) = ({ m with suppressQuit := false, state := UIState.list }, [])) ∧
      (k ≠ "?" →
        m.update (Msg.key k) = ({ m with state := UIState.list }).update (Msg.key k)) := by
  intro m k hstate
  constructor
  · intro hk
    subst hk
    rw [update_key]
    unfold Model.handleKeyMsg
    rw [show ({ m with suppressQuit := false } : Model).state = UIState.help from hstate]
    simp [keyMatches, defaultKeyMap, List.contains]
  · intro hk
    rw [update_key, update_key]
    unfold Model.handleKeyMsg
    rw [show ({ m with suppressQuit := false } : Model).state = UIState.help from hstate]
    simp [keyMatches, defaultKeyMap, List.contains, hk]

/-- Witness for C8: closing help with "?" and closing it with "X" (which
also toggles the archived view, as in List state). -/
theorem claim_C8_witness :
    ({ initialModel sampleStore with state := UIState.help } : Model).update (Msg.key "?") =
      ({ initialModel sampleStore with suppressQuit := false, state := UIState.list }, []) ∧
    ({ initialModel sampleStore with state := UIState.help } : Model).update (Msg.key "X") =
      ({ initialModel sampleStore with state := UIState.list } : Model).update (Msg.key "X") := by
  have h := claim_C8_help_never_swallows_keys
    { initialModel sampleStore with state := UIState.help }
  exact ⟨(h "?" rfl).1 rfl, (h "X" rfl).2 (by decide)⟩

/-! ## Claim C9 -/

/-- C9: ctrl+c in AddURL and Search is two-stage — with a non-empty input
it only clears the input (for Search also resetting the filtered list,
cursor and scroll) and stays in the same state; with an empty input it
returns to List. -/
theorem claim_C9_ctrlc_two_stage :
    ∀ m : Model,
      (m.state = UIState.addURL → m.urlValue ≠ "" →
        m.update (Msg.key "ctrl+c") =
          ({ m with suppressQuit := false, urlValue := "" }, [])) ∧
      (m.state = UIState.addURL → m.urlValue = "" →
        m.update (Msg.key "ctrl+c") =
          ({ m with suppressQuit := false, state := UIState.list }, [])) ∧
      (m.state = UIState.search → m.searchValue ≠ "" →
        (m.update (Msg.key "ctrl+c")).1.state = UIState.search ∧
        (m.update (Msg.key "ctrl+c")).1.searchValue = "" ∧
        (m.update (Msg.key "ctrl+c")).1.cursor = 0 ∧
        (m.update (Msg.key "ctrl+c")).1.scrollPos = 0 ∧
        (m.update (Msg.key "ctrl+c")).1.articles = m.applyArchiveFilter m.store.list ∧
        (m.update (Msg.key "ctrl+c")).2 = []) ∧
      (m.state = UIState.search → m.searchValue = "" →
        m.update (Msg.key "ctrl+c") =
          ({ m with
              suppressQuit := false
              state := UIState.list
              searchActive := false }, [])) := by
  intro m
  refine ⟨?_, ?_, ?_, ?_⟩
  · intro hstate hv
    rw [update_key, handleKeyMsg_of_addURL { m with suppressQuit := false } _ hstate]
    simp [Model.handleAddURLKeys, hv]
  · intro hstate hv
    rw [update_key, handleKeyMsg_of_addURL { m with suppressQuit := false } _ hstate]
    simp [Model.handleAddURLKeys, hv]
  · intro hstate hv
    rw [update_key, handleKeyMsg_of_search { m with suppressQuit := false } _ hstate]
    simp only [Model.handleSearchKeys]
    simp only [if_true, ite_true, eq_self_iff_true]
    rw [if_pos (show ({ m with suppressQuit := false } : Model).searchValue ≠ "" from hv)]
    rw [refreshArticles_eq]
    simp [refreshedArticles, refreshedCursor, Model.applyArchiveFilter, hstate]
  · intro hstate hv
    rw [update_key, handleKeyMsg_of_search { m with suppressQuit := false } _ hstate]
    simp [Model.handleSearchKeys, hv]

/-- Witness for C9 on concrete AddURL and Search sessions. -/
theorem claim_C9_witness :
    addURLFixture.update (Msg.key "ctrl+c") =
      ({ addURLFixture with suppressQuit := false, urlValue := "" }, []) ∧
    ({ addURLFixture with urlValue := "" } : Model).update (Msg.key "ctrl+c") =
      ({ addURLFixture with
          urlValue := ""
          suppressQuit := false
          state := UIState.list }, []) ∧
    (searchFixture.update (Msg.key "ctrl+c")).1.state = UIState.search ∧
    (searchFixture.update (Msg.key "ctrl+c")).1.searchValue = "" ∧
    (searchFixture.update (Msg.key "ctrl+c")).1.cursor = 0 ∧
    ({ searchFixture with searchValue := "" } : Model).update (Msg.key "ctrl+c") =
      ({ searchFixture with
          searchValue := ""
          suppressQuit := false
          state := UIState.list
          searchActive := false }, []) := by
  have h1 := (claim_C9_ctrlc_two_stage addURLFixture).1 rfl (by decide)
  have h2 := (claim_C9_ctrlc_two_stage { addURLFixture with urlValue := "" }).2.1 rfl rfl
  have h3 := (claim_C9_ctrlc_two_stage searchFixture).2.2.1 rfl (by decide)
  have h4 := (claim_C9_ctrlc_two_stage { searchFixture with searchValue := "" }).2.2.2 rfl rfl
  exact ⟨h1, h2, h3.1, h3.2.1, h3.2.2.1, h4⟩

/-! ## Claim C6 -/

/-- C6: submitting a URL that validates and exactly equals the source URL
of an existing saved article carrying the archived tag transitions
directly to List with no command dispatched (in particular no fetch),
persists that article's tag set minus "archived" via the store's tag
update, and sets the status message to Unarchived "<title>". -/
theorem claim_C6_addurl_unarchive :
    ∀ (m : Model) (a : ArticleMeta), m.state = UIState.addURL →
      validArticleURL (normalizeURL m.urlValue) = true →
      m.store.list.find? (fun x => x.sourceURL = normalizeURL m.urlValue) = some a →
      a.isArchived = true →
      (m.update (Msg.key "enter")).1.state = UIState.list ∧
      (m.update (Msg.key "enter")).1.store =
        m.store.updateTags a.filePath (a.tags.filter (fun t => goToLower t ≠ "archived")) ∧
      (m.update (Msg.key "enter")).1.statusMsg = "Unarchived " ++ goQuote a.title ∧
      (m.update (Msg.key "enter")).2 = [] := by
  intro m a hstate hvalid hfind harch
  have hne : goTrimSpace m.urlValue ≠ "" := by
    intro h
    have hf : validArticleURL (normalizeURL m.urlValue) = false := by
      simp only [normalizeURL, h]
      decide
    rw [hf] at hvalid
    cases hvalid
  rw [update_key, handleKeyMsg_of_addURL { m with suppressQuit := false } _ hstate]
  simp only [Model.handleAddURLKeys, keyMatches, defaultKeyMap]
  simp only [List.contains]
  by_cases hp : (goHasPrefix (goTrimSpace m.urlValue) "http://" ||
      goHasPrefix (goTrimSpace m.urlValue) "https://") = true
  · have hnorm : normalizeURL m.urlValue = goTrimSpace m.urlValue := by
      simp [normalizeURL, hp]
    rw [hnorm] at hvalid hfind
    simp [hne, hp, hvalid, hfind, harch]
  · have hnorm : normalizeURL m.urlValue = "https://" ++ goTrimSpace m.urlValue := by
      simp only [normalizeURL]
      rw [if_neg hp]
    rw [hnorm] at hvalid hfind
    simp only [Bool.not_eq_true] at hp
    simp [hne, hp, hvalid, hfind, harch]

/-- Witness for C6: adding "example.com/a" (no scheme) with the archived
"My Post" saved from https://example.com/a. -/
theorem claim_C6_witness :
    (unarchiveFixture.update (Msg.key "enter")).1.state = UIState.list ∧
    (unarchiveFixture.update (Msg.key "enter")).1.store =
      sampleStore.updateTags sampleArchived.filePath
        (sampleArchived.tags.filter (fun t => goToLower t ≠ "archived")) ∧
    (unarchiveFixture.update (Msg.key "enter")).1.statusMsg = "Unarchived \"My Post\"" ∧
    (unarchiveFixture.update (Msg.key "enter")).2 = [] := by
  have h := claim_C6_addurl_unarchive unarchiveFixture sampleArchived
    (by decide) (by decide) (by decide) (by decide)
  exact ⟨h.1, h.2.1, by rw [h.2.2.1]; decide, h.2.2.2⟩

/-! ## Claim C7 -/

/-- C7: when a current-generation extraction result's derived slug already
exists on disk (no pre-fetch overwrite target pending), the machine enters
ConfirmOverwrite holding the result as pending and dispatches nothing;
there, "n", "N" or escape discards the pending result and returns to List
with the store untouched (no write), while "y" force-saves the pending
result over the existing slug and returns to List. -/
theorem claim_C7_overwrite_confirmation :
    (∀ (m : Model) (r : ExtractResult) (g : Nat),
      g = m.fetchGen → m.overwritePath = "" →
      m.store.slugOnDisk (goSlugify r.title) = true →
      m.update (Msg.articleExtracted r g) =
        ({ m with
            suppressQuit := false
            state := UIState.confirmOverwrite
            pendingResult := some r }, [])) ∧
    (∀ (m : Model) (k : String), m.state = UIState.confirmOverwrite →
      (k = "n" ∨ k = "N" ∨ k = "esc") →
      m.update (Msg.key k) =
        ({ m with
            suppressQuit := true
            state := UIState.list
            pendingResult := none
            overwritePath := ""
            overwriteTitle := "" }, [])) ∧
    (∀ (m : Model) (r : ExtractResult), m.state = UIState.confirmOverwrite →
      m.pendingResult = some r →
      (m.update (Msg.key "y")).1.state = UIState.list ∧
      (m.update (Msg.key "y")).1.store = m.store.saveContentForce r.title r.content ∧
      (m.update (Msg.key "y")).1.pendingResult = none) := by
  refine ⟨?_, ?_, ?_⟩
  · intro m r g hgen hop hcol
    simp [Model.update, hgen, hop, Store.saveContent, hcol]
  · intro m k hstate hk
    rw [update_key, handleKeyMsg_of_confirmOverwrite { m with suppressQuit := false } _ hstate]
    rcases hk with h | h | h <;> subst h <;> simp [Model.handleConfirmOverwriteKeys]
  · intro m r hstate hpr
    rw [update_key, handleKeyMsg_of_confirmOverwrite { m with suppressQuit := false } _ hstate]
    simp [Model.handleConfirmOverwriteKeys, hpr, Model.confirmOverwriteYes]

/-- Witness for C7: the "Dup"-collision session; entry into
ConfirmOverwrite, then the "n" and "y" outcomes. -/
theorem claim_C7_witness :
    fetchingFixture.update (Msg.articleExtracted ⟨"Dup", "body"⟩ 1) =
      ({ fetchingFixture with
          suppressQuit := false
          state := UIState.confirmOverwrite
          pendingResult := some ⟨"Dup", "body"⟩ }, []) ∧
    collideModel.update (Msg.key "n") =
      ({ collideModel with
          suppressQuit := true
          state := UIState.list
          pendingResult := none
          overwritePath := ""
          overwriteTitle := "" }, []) ∧
    (collideModel.update (Msg.key "y")).1.state = UIState.list ∧
    (collideModel.update (Msg.key "y")).1.store =
      collideModel.store.saveContentForce "Dup" "body" ∧
    (collideModel.update (Msg.key "y")).1.pendingResult = none := by
  have h := claim_C7_overwrite_confirmation
  have h3 := h.2.2 collideModel ⟨"Dup", "body"⟩ (by decide) (by decide)
  exact ⟨h.1 fetchingFixture ⟨"Dup", "body"⟩ 1 (by decide) (by decide) (by decide),
    h.2.1 collideModel "n" (by decide) (Or.inl rfl),
    h3.1, h3.2.1, h3.2.2⟩

/-! ## Claim C4 -/

theorem importSummary_eq (m : Model) :
    m.importSummary = importSummaryOf m.importDone m.importSkipped m.importErrors.length :=
  rfl

theorem importStep_next (oc : String → ImportOutcome) (m : Model) (u v : String)
    (rest : List String) (hq : m.importQueue = u :: v :: rest) :
    (m.update (importResultMsg oc u)).2 = [Cmd.importExtractAndSave v] ∧
    (m.update (importResultMsg oc u)).1.state = m.state ∧
    (m.update (importResultMsg oc u)).1.importQueue = v :: rest ∧
    (m.update (importResultMsg oc u)).1.importDone = m.importDone + 1 ∧
    (m.update (importResultMsg oc u)).1.importSkipped =
      m.importSkipped + (countSkipped oc [u] : Int) ∧
    (m.update (importResultMsg oc u)).1.importErrors =
      m.importErrors ++ importFailures oc [u] ∧
    (m.update (importResultMsg oc u)).1.importTotal = m.importTotal := by
  cases hoc : oc u <;>
    simp [Model.update, importResultMsg, hoc, Model.handleImportArticleResult, hq,
      countSkipped, importFailures]

theorem importStep_last (oc : String → ImportOutcome) (m : Model) (u : String)
    (hq : m.importQueue = [u]) :
    (m.update (importResultMsg oc u)).2 = [] ∧
    (m.update (importResultMsg oc u)).1.state = UIState.list ∧
    (m.update (importResultMsg oc u)).1.importQueue = [] ∧
    (m.update (importResultMsg oc u)).1.importDone = m.importDone + 1 ∧
    (m.update (importResultMsg oc u)).1.importSkipped =
      m.importSkipped + (countSkipped oc [u] : Int) ∧
    (m.update (importResultMsg oc u)).1.importErrors =
      m.importErrors ++ importFailures oc [u] ∧
    (m.update (importResultMsg oc u)).1.importTotal = m.importTotal ∧
    (m.update (importResultMsg oc u)).1.statusMsg =
      (m.update (importResultMsg oc u)).1.importSummary := by
  cases hoc : oc u <;>
    simp [Model.update, importResultMsg, hoc, Model.handleImportArticleResult, hq,
      countSkipped, importFailures, Model.importSummary]

theorem countSaved_partition (oc : String → ImportOutcome) (urls : List String) :
    countSaved oc urls + countSkipped oc urls + countFailed oc urls = urls.length := by
  induction urls with
  | nil => rfl
  | cons u rest ih =>
    cases hoc : oc u <;>
      simp [countSaved, countSkipped, countFailed, hoc] <;>
      simp [countSaved, countSkipped, countFailed] at ih <;>
      omega

theorem runImportQueue_spec (oc : String → ImportOutcome) :
    ∀ (urls : List String) (m : Model), urls ≠ [] →
      m.state = UIState.importing → m.importQueue = urls →
      (runImportQueue oc m urls.length).state = UIState.list ∧
      (runImportQueue oc m urls.length).importQueue = [] ∧
      (runImportQueue oc m urls.length).importDone = m.importDone + (urls.length : Int) ∧
      (runImportQueue oc m urls.length).importSkipped =
        m.importSkipped + (countSkipped oc urls : Int) ∧
      (runImportQueue oc m urls.length).importErrors =
        m.importErrors ++ importFailures oc urls ∧
      (runImportQueue oc m urls.length).importTotal = m.importTotal ∧
      (runImportQueue oc m urls.length).statusMsg =
        (runImportQueue oc m urls.length).importSummary := by
  intro urls
  induction urls with
  | nil => intro m h; cases h rfl
  | cons u rest ih =>
    intro m _ hstate hq
    have hrun : runImportQueue oc m (u :: rest).length =
        runImportQueue oc ((m.update (importResultMsg oc u)).1) rest.length := by
      simp only [List.length_cons, runImportQueue, hq]
    cases rest with
    | nil =>
      have h := importStep_last oc m u hq
      rw [hrun]
      simp only [List.length_nil, runImportQueue]
      refine ⟨h.2.1, h.2.2.1, ?_, ?_, ?_, h.2.2.2.2.2.2.1, h.2.2.2.2.2.2.2⟩
      · rw [h.2.2.2.1]; simp
      · rw [h.2.2.2.2.1]
      · rw [h.2.2.2.2.2.1]
    | cons v rest2 =>
      have h := importStep_next oc m u v rest2 hq
      have hih := ih ((m.update (importResultMsg oc u)).1) (by simp)
        (by rw [h.2.1]; exact hstate) h.2.2.1
      rw [hrun]
      refine ⟨hih.1, hih.2.1, ?_, ?_, ?_, ?_, hih.2.2.2.2.2.2⟩
      · rw [hih.2.2.1, h.2.2.2.1]
        simp only [List.length_cons]
        push_cast
        omega
      · rw [hih.2.2.2.1, h.2.2.2.2.1]
        have hsplit : countSkipped oc (u :: v :: rest2) =
            countSkipped oc [u] + countSkipped oc (v :: rest2) := by
          cases hoc : oc u <;> simp [countSkipped, hoc] <;> omega
        rw [hsplit]
        push_cast
        omega
      · rw [hih.2.2.2.2.1, h.2.2.2.2.2.1]
        have hsplit : importFailures oc (u :: v :: rest2) =
            importFailures oc [u] ++ importFailures oc (v :: rest2) := by
          cases hoc : oc u <;> simp [importFailures, hoc]
        rw [hsplit, List.append_assoc]
      · rw [hih.2.2.2.2.2.1, h.2.2.2.2.2.2]

/-- C4 (amended): the batch import pipeline processes its queue strictly
one URL at a time in queue order — handling one URL's result dispatches
exactly the next queued URL's extract+save command, whatever the outcome,
so a per-item failure never aborts the batch — classifying every outcome
as saved, skipped or failed-with-recorded-message; entering Importing
dispatches only the head URL; and when the queue empties the machine
returns to List with N + M + K = total and the status string
"Import complete: N saved" extended by ", M skipped" when M > 0 and
", K failed" when K > 0. -/
theorem claim_C4_sequential_import_pipeline :
    (∀ (oc : String → ImportOutcome) (m : Model) (u v : String) (rest : List String),
      m.state = UIState.importing → m.importQueue = u :: v :: rest →
      (m.update (importResultMsg oc u)).2 = [Cmd.importExtractAndSave v] ∧
      (m.update (importResultMsg oc u)).1.state = UIState.importing ∧
      (m.update (importResultMsg oc u)).1.importQueue = v :: rest) ∧
    (∀ (m : Model) (content : String) (u : String) (rest : List String),
      parseImportFile content = u :: rest →
      (m.handleImportEditorFinished none (some content)).1.state = UIState.importing ∧
      (m.handleImportEditorFinished none (some content)).1.importQueue = u :: rest ∧
      (m.handleImportEditorFinished none (some content)).1.importTotal =
        ((u :: rest).length : Int) ∧
      (m.handleImportEditorFinished none (some content)).2 =
        [Cmd.spinnerTick, Cmd.importExtractAndSave u]) ∧
    (∀ (oc : String → ImportOutcome) (m : Model) (urls : List String), urls ≠ [] →
      m.state = UIState.importing → m.importQueue = urls →
      countSaved oc urls + countSkipped oc urls + countFailed oc urls = urls.length ∧
      (runImportQueue oc m urls.length).state = UIState.list ∧
      (runImportQueue oc m urls.length).importQueue = [] ∧
      (runImportQueue oc m urls.length).importDone = m.importDone + (urls.length : Int) ∧
      (runImportQueue oc m urls.length).importSkipped =
        m.importSkipped + (countSkipped oc urls : Int) ∧
      (runImportQueue oc m urls.length).importErrors =
        m.importErrors ++ importFailures oc urls ∧
      (runImportQueue oc m urls.length).statusMsg =
        importSummaryOf (runImportQueue oc m urls.length).importDone
          (runImportQueue oc m urls.length).importSkipped
          (runImportQueue oc m urls.length).importErrors.length) := by
  refine ⟨?_, ?_, ?_⟩
  · intro oc m u v rest hstate hq
    have h := importStep_next oc m u v rest hq
    exact ⟨h.1, by rw [h.2.1]; exact hstate, h.2.2.1⟩
  · intro m content u rest hparse
    simp [Model.handleImportEditorFinished, hparse]
  · intro oc m urls hne hstate hq
    have h := runImportQueue_spec oc urls m hne hstate hq
    exact ⟨countSaved_partition oc urls, h.1, h.2.1, h.2.2.1, h.2.2.2.1, h.2.2.2.2.1,
      by rw [h.2.2.2.2.2.2, importSummary_eq]⟩

/-- Counterexample to C4 as stated: the 3-URL batch with one extraction
failure finishes with status "Import complete: 2 saved, 1 failed" — not
the bare "2 saved, 1 failed" the claim's summary form prescribes. -/
theorem claim_C4_counterexample :
    importRunModel.statusMsg = "Import complete: 2 saved, 1 failed" ∧
    importRunModel.statusMsg ≠ "2 saved, 1 failed" := by
  constructor <;> decide

/-- Witness for C4 on the concrete three-URL batch. -/
theorem claim_C4_witness :
    (importEntryModel.update (importResultMsg importOracle "http://a.com/x")).2 =
      [Cmd.importExtractAndSave "http://b.com/y"] ∧
    (({ initialModel emptyStore with state := UIState.gatheringTabs } : Model
      ).handleImportEditorFinished none
        (some "http://a.com/x\nhttp://b.com/y\nhttp://c.com/z\n")).2 =
      [Cmd.spinnerTick, Cmd.importExtractAndSave "http://a.com/x"] ∧
    countSaved importOracle ["http://a.com/x", "http://b.com/y", "http://c.com/z"] +
      countSkipped importOracle ["http://a.com/x", "http://b.com/y", "http://c.com/z"] +
      countFailed importOracle ["http://a.com/x", "http://b.com/y", "http://c.com/z"] = 3 ∧
    importRunModel.state = UIState.list ∧
    importRunModel.importDone = 3 ∧
    importRunModel.importErrors = ["http://c.com/z: boom"] := by
  have h := claim_C4_sequential_import_pipeline
  have h1 := h.1 importOracle importEntryModel "http://a.com/x" "http://b.com/y"
    ["http://c.com/z"] (by decide) (by decide)
  have h2 := h.2.1 { initialModel emptyStore with state := UIState.gatheringTabs }
    "http://a.com/x\nhttp://b.com/y\nhttp://c.com/z\n" "http://a.com/x"
    ["http://b.com/y", "http://c.com/z"] (by decide)
  have h3 := h.2.2 importOracle importEntryModel
    ["http://a.com/x", "http://b.com/y", "http://c.com/z"] (by decide) (by decide) (by decide)
  refine ⟨h1.1, h2.2.2.2, h3.1, h3.2.1, ?_, ?_⟩
  · have hd : importRunModel.importDone = importEntryModel.importDone +
        ((["http://a.com/x", "http://b.com/y", "http://c.com/z"].length : Nat) : Int) :=
      h3.2.2.2.1
    rw [hd]
    decide
  · have he : importRunModel.importErrors = importEntryModel.importErrors ++
        importFailures importOracle ["http://a.com/x", "http://b.com/y", "http://c.com/z"] :=
      h3.2.2.2.2.2.1
    rw [he]
    decide

/-! ## Claim C10 -/

theorem findIdx?_lt_length {α : Type} (p : α → Bool) (l : List α) (i : Nat)
    (h : l.findIdx? p = some i) : i < l.length := by
  induction l generalizing i with
  | nil => cases h
  | cons a as ih =>
    rw [List.findIdx?_cons] at h
    by_cases hp : p a
    · simp [hp] at h
      subst h
      simp
    · simp [hp] at h
      rcases h with ⟨j, hj, rfl⟩
      simpa using Nat.succ_lt_succ (ih j hj)

theorem refreshArticles_cursorInBounds (m : Model) (h0 : 0 ≤ m.cursor) :
    cursorInBounds m.refreshArticles := by
  rw [refreshArticles_eq]
  show 0 ≤ refreshedCursor m ∧ refreshedCursor m < max 1 ((refreshedArticles m).length : Int)
  unfold refreshedCursor
  split_ifs <;> omega

theorem refreshArticles_statusMsg_cursorInBounds (m : Model) (s : String)
    (h0 : 0 ≤ m.cursor) : cursorInBounds { m.refreshArticles with statusMsg := s } :=
  refreshArticles_cursorInBounds m h0

theorem cursorToFilePath_cursorInBounds (m : Model) (p : String) (h : cursorInBounds m) :
    cursorInBounds (m.cursorToFilePath p) := by
  unfold Model.cursorToFilePath
  split
  · next i hi =>
    have hlt := findIdx?_lt_length _ _ _ hi
    exact ⟨Int.natCast_nonneg i, by simp; omega⟩
  · exact h

theorem cursorToTitle_cursorInBounds (m : Model) (t : String) (h : cursorInBounds m) :
    cursorInBounds (m.cursorToTitle t) := by
  unfold Model.cursorToTitle
  split
  · next i hi =>
    have hlt := findIdx?_lt_length _ _ _ hi
    exact ⟨Int.natCast_nonneg i, by simp; omega⟩
  · exact h

theorem savePositionFromFile_cursorInBounds (m : Model) (posData : Option String)
    (h : cursorInBounds m) : cursorInBounds (m.savePositionFromFile posData) := by
  unfold Model.savePositionFromFile
  split
  · exact h
  · split
    · split
      · exact h
      · split
        · exact h
        · split
          · next a ha => exact refreshArticles_cursorInBounds _ h.1
          · exact refreshArticles_cursorInBounds _ h.1
    · exact h

theorem handleAddURLKeys_cursorInBounds (m : Model) (k : String) (h : cursorInBounds m) :
    cursorInBounds (m.handleAddURLKeys k).1 := by
  simp only [Model.handleAddURLKeys]
  repeat' split
  all_goals
    first
      | exact h
      | exact cursorToFilePath_cursorInBounds _ _ (refreshArticles_cursorInBounds _ h.1)

theorem handleSearchKeys_cursorInBounds (m : Model) (k : String) (h : cursorInBounds m) :
    cursorInBounds (m.handleSearchKeys k).1 := by
  simp only [Model.handleSearchKeys]
  repeat' split
  all_goals
    first
      | exact h
      | (refine ⟨?_, ?_⟩ <;>
          (have h1 := h.1; have h2 := h.2; first | (simp at *; try omega) | omega))

set_option maxHeartbeats 1000000 in
theorem confirmOverwriteYes_cursorInBounds (m : Model) (r : ExtractResult)
    (h : cursorInBounds m) : cursorInBounds (m.confirmOverwriteYes r).1 := by
  unfold Model.confirmOverwriteYes
  dsimp only
  rw [openSelectedArticle_model]
  exact cursorToTitle_cursorInBounds _ _ (refreshArticles_cursorInBounds _ h.1)

set_option maxHeartbeats 1000000 in
theorem afterSave_cursorInBounds (m : Model) (store : Store) (title : String)
    (h : cursorInBounds m) : cursorInBounds (m.afterSave store title).1 := by
  unfold Model.afterSave
  dsimp only
  rw [openSelectedArticle_model]
  exact cursorToTitle_cursorInBounds _ _ (refreshArticles_cursorInBounds _ h.1)

theorem handleConfirmOverwriteKeys_cursorInBounds (m : Model) (k : String)
    (h : cursorInBounds m) : cursorInBounds (m.handleConfirmOverwriteKeys k).1 := by
  simp only [Model.handleConfirmOverwriteKeys]
  repeat' split
  all_goals
    first
      | exact h
      | exact confirmOverwriteYes_cursorInBounds _ _ h

theorem handleConfirmDeleteKeys_cursorInBounds (m : Model) (k : String)
    (h : cursorInBounds m) : cursorInBounds (m.handleConfirmDeleteKeys k).1 := by
  simp only [Model.handleConfirmDeleteKeys]
  repeat' split
  all_goals exact h

theorem archiveSelectedArticle_cursorInBounds (m : Model) (h : cursorInBounds m) :
    cursorInBounds m.archiveSelectedArticle.1 := by
  simp only [Model.archiveSelectedArticle]
  repeat' split
  all_goals
    first
      | exact h
      | exact cursorToFilePath_cursorInBounds _ _ (refreshArticles_cursorInBounds _ h.1)

theorem listUp_cursorInBounds (m : Model) (h : cursorInBounds m) :
    cursorInBounds m.listUp.1 := by
  unfold Model.listUp
  split <;>
    refine ⟨?_, ?_⟩ <;>
      (have h1 := h.1; have h2 := h.2; first | (simp at *; try omega) | omega)

theorem listDown_cursorInBounds (m : Model) (h : cursorInBounds m) :
    cursorInBounds m.listDown.1 := by
  unfold Model.listDown
  split <;>
    refine ⟨?_, ?_⟩ <;>
      (have h1 := h.1; have h2 := h.2; first | (simp at *; try omega) | omega)

theorem listTop_cursorInBounds (m : Model) (h : cursorInBounds m) :
    cursorInBounds m.listTop.1 := by
  unfold Model.listTop
  refine ⟨?_, ?_⟩ <;>
    (have h1 := h.1; have h2 := h.2; first | (simp at *; try omega) | omega)

theorem listBottom_cursorInBounds (m : Model) (h : cursorInBounds m) :
    cursorInBounds m.listBottom.1 := by
  unfold Model.listBottom
  split <;>
    refine ⟨?_, ?_⟩ <;>
      (have h1 := h.1; have h2 := h.2; first | (simp at *; try omega) | omega)

theorem listSearch_cursorInBounds (m : Model) (h : cursorInBounds m) :
    cursorInBounds m.listSearch.1 := by
  unfold Model.listSearch
  refine ⟨?_, ?_⟩ <;>
    (have h1 := h.1; have h2 := h.2; first | (simp at *; try omega) | omega)

theorem listDelete_cursorInBounds (m : Model) (h : cursorInBounds m) :
    cursorInBounds m.listDelete.1 := by
  unfold Model.listDelete
  dsimp only
  repeat' split
  all_goals exact h

theorem listReload_cursorInBounds (m : Model) (h : cursorInBounds m) :
    cursorInBounds m.listReload.1 := by
  unfold Model.listReload
  dsimp only
  repeat' split
  all_goals exact h

theorem listSafariReload_cursorInBounds (m : Model) (h : cursorInBounds m) :
    cursorInBounds m.listSafariReload.1 := by
  unfold Model.listSafariReload
  dsimp only
  repeat' split
  all_goals exact h

theorem handleListKeys_cursorInBounds (m : Model) (k : String) (h : cursorInBounds m) :
    cursorInBounds (m.handleListKeys k).1 := by
  simp only [Model.handleListKeys]
  by_cases h1 : keyMatches k defaultKeyMap.quit = true
  · rw [if_pos h1]; exact h
  rw [if_neg h1]
  by_cases h2 : keyMatches k defaultKeyMap.up = true
  · rw [if_pos h2]; exact listUp_cursorInBounds _ h
  rw [if_neg h2]
  by_cases h3 : keyMatches k defaultKeyMap.down = true
  · rw [if_pos h3]; exact listDown_cursorInBounds _ h
  rw [if_neg h3]
  by_cases h4 : keyMatches k defaultKeyMap.top = true
  · rw [if_pos h4]; exact listTop_cursorInBounds _ h
  rw [if_neg h4]
  by_cases h5 : keyMatches k defaultKeyMap.bottom = true
  · rw [if_pos h5]; exact listBottom_cursorInBounds _ h
  rw [if_neg h5]
  by_cases h6 : keyMatches k defaultKeyMap.openKey = true
  · rw [if_pos h6, openSelectedArticle_model]; exact h
  rw [if_neg h6]
  by_cases h7 : keyMatches k defaultKeyMap.add = true
  · rw [if_pos h7]; exact h
  rw [if_neg h7]
  by_cases h8 : keyMatches k defaultKeyMap.importKey = true
  · rw [if_pos h8]; exact h
  rw [if_neg h8]
  by_cases h9 : keyMatches k defaultKeyMap.delete = true
  · rw [if_pos h9]; exact listDelete_cursorInBounds _ h
  rw [if_neg h9]
  by_cases h10 : keyMatches k defaultKeyMap.archive = true
  · rw [if_pos h10]; exact archiveSelectedArticle_cursorInBounds _ h
  rw [if_neg h10]
  by_cases h11 : keyMatches k defaultKeyMap.showArchive = true
  · rw [if_pos h11]; exact refreshArticles_cursorInBounds _ h.1
  rw [if_neg h11]
  by_cases h12 : keyMatches k defaultKeyMap.search = true
  · rw [if_pos h12]; exact listSearch_cursorInBounds _ h
  rw [if_neg h12]
  by_cases h13 : keyMatches k defaultKeyMap.reload = true
  · rw [if_pos h13]; exact listReload_cursorInBounds _ h
  rw [if_neg h13]
  by_cases h14 : keyMatches k defaultKeyMap.help = true
  · rw [if_pos h14]; exact h
  rw [if_neg h14]
  by_cases h15 : keyMatches k defaultKeyMap.safariReload = true
  · rw [if_pos h15]; exact listSafariReload_cursorInBounds _ h
  rw [if_neg h15]
  exact h

theorem handleKeyMsg_cursorInBounds (m : Model) (k : String) (h : cursorInBounds m) :
    cursorInBounds (m.handleKeyMsg k).1 := by
  unfold Model.handleKeyMsg
  dsimp only
  cases hst : m.state
  case list => exact handleListKeys_cursorInBounds _ _ h
  case addURL => exact handleAddURLKeys_cursorInBounds _ _ h
  case loading => dsimp only; split <;> exact h
  case search => exact handleSearchKeys_cursorInBounds _ _ h
  case confirmOverwrite => exact handleConfirmOverwriteKeys_cursorInBounds _ _ h
  case confirmDelete => exact handleConfirmDeleteKeys_cursorInBounds _ _ h
  case gatheringTabs => dsimp only; split <;> exact h
  case importing =>
    dsimp only
    split
    · exact refreshArticles_cursorInBounds _ h.1
    · exact h
  case safariWaiting =>
    dsimp only
    split
    · exact h
    split <;> exact h
  case help =>
    dsimp only
    split
    · exact h
    · exact handleListKeys_cursorInBounds _ _ h

set_option maxHeartbeats 1000000 in
theorem update_cursorInBounds (m : Model) (msg : Msg) (h : cursorInBounds m) :
    cursorInBounds (m.update msg).1 := by
  cases msg with
  | windowSize w hh =>
    unfold Model.update
    dsimp only
    exact h
  | key k =>
    unfold Model.update
    dsimp only
    refine handleKeyMsg_cursorInBounds _ _ ?_
    exact h
  | spinnerTick =>
    unfold Model.update
    dsimp only
    split <;> exact h
  | articleExtracted r g =>
    unfold Model.update
    dsimp only
    split
    · exact h
    · repeat' split
      all_goals
        first
          | (refine afterSave_cursorInBounds _ _ _ ?_; exact h)
          | exact h
  | safariOpened ok emsg =>
    unfold Model.update
    dsimp only
    split <;> exact h
  | safariHTMLExtracted url html emsg =>
    unfold Model.update
    dsimp only
    split
    · exact h
    · dsimp only; exact h
  | extractionErr e g =>
    unfold Model.update
    dsimp only
    split <;> exact h
  | articleDeleted id =>
    unfold Model.update
    dsimp only
    refine refreshArticles_statusMsg_cursorInBounds _ _ ?_
    exact h.1
  | editorFinished emsg posData =>
    unfold Model.update
    dsimp only
    split
    all_goals
      refine refreshArticles_cursorInBounds _ (savePositionFromFile_cursorInBounds _ _ ?_).1
      exact h
  | safariTabsGathered total warnings =>
    unfold Model.update Model.handleSafariTabsGathered
    dsimp only
    repeat' split
    all_goals exact h
  | importEditorFinished emsg fileContent =>
    unfold Model.update Model.handleImportEditorFinished
    dsimp only
    repeat' split
    all_goals exact h
  | importArticleResult url title skipped emsg =>
    unfold Model.update Model.handleImportArticleResult
    dsimp only
    repeat' split
    all_goals
      first
        | (refine refreshArticles_statusMsg_cursorInBounds _ _ ?_; exact h.1)
        | exact h
  | clearStatus =>
    unfold Model.update
    dsimp only
    exact h

/-- C10: after every processed event the cursor lies in [0, len(articles)-1]
when the article list is non-empty and is exactly 0 when the list is empty,
and every selection-dependent operation (open, delete, archive, re-fetch via
reload or Safari reload) leaves the model unchanged and dispatches no command
when the list is empty or the cursor is at or past the list length, so
selection indexing never occurs out of bounds. -/
theorem claim_C10_cursor_safety (m : Model) (msg : Msg) (h : cursorInBounds m) :
    ((0 ≤ (m.update msg).1.cursor ∧
      ((m.update msg).1.articles ≠ [] →
        (m.update msg).1.cursor < (((m.update msg).1.articles.length : Int))) ∧
      ((m.update msg).1.articles = [] → (m.update msg).1.cursor = 0)) ∧
     (m.articles.length = 0 ∨ (m.articles.length : Int) ≤ m.cursor →
      m.openSelectedArticle = (m, []) ∧
      m.archiveSelectedArticle = (m, []) ∧
      m.listDelete = (m, []) ∧
      m.listReload = (m, []) ∧
      m.listSafariReload = (m, []))) := by
  constructor
  · have hc := update_cursorInBounds m msg h
    unfold cursorInBounds at hc
    obtain ⟨h1, h2⟩ := hc
    refine ⟨h1, ?_, ?_⟩
    · intro hne
      have hlen : (m.update msg).1.articles.length ≠ 0 :=
        fun hz => hne (List.length_eq_zero.mp hz)
      omega
    · intro he
      have hlen : (m.update msg).1.articles.length = 0 := by rw [he]; rfl
      omega
  · intro hg
    refine ⟨?_, ?_, ?_, ?_, ?_⟩ <;>
      · rcases hg with hg | hg
        · simp [Model.openSelectedArticle, Model.archiveSelectedArticle,
            Model.listDelete, Model.listReload, Model.listSafariReload, hg]
        · simp [Model.openSelectedArticle, Model.archiveSelectedArticle,
            Model.listDelete, Model.listReload, Model.listSafariReload,
            ge_iff_le, hg]

/-- Witness for C10 at the fresh empty-library session and a clearStatus
event: the in-bounds hypothesis holds and the conclusion follows. -/
theorem claim_C10_witness :
    cursorInBounds (initialModel emptyStore) ∧
    (((0 ≤ ((initialModel emptyStore).update Msg.clearStatus).1.cursor ∧
      (((initialModel emptyStore).update Msg.clearStatus).1.articles ≠ [] →
        ((initialModel emptyStore).update Msg.clearStatus).1.cursor <
          ((((initialModel emptyStore).update Msg.clearStatus).1.articles.length : Int))) ∧
      (((initialModel emptyStore).update Msg.clearStatus).1.articles = [] →
        ((initialModel emptyStore).update Msg.clearStatus).1.cursor = 0)) ∧
     ((initialModel emptyStore).articles.length = 0 ∨
        ((initialModel emptyStore).articles.length : Int) ≤ (initialModel emptyStore).cursor →
      (initialModel emptyStore).openSelectedArticle = (initialModel emptyStore, []) ∧
      (initialModel emptyStore).archiveSelectedArticle = (initialModel emptyStore, []) ∧
      (initialModel emptyStore).listDelete = (initialModel emptyStore, []) ∧
      (initialModel emptyStore).listReload = (initialModel emptyStore, []) ∧
      (initialModel emptyStore).listSafariReload = (initialModel emptyStore, [])))) :=
  ⟨⟨by decide, by decide⟩,
   claim_C10_cursor_safety (initialModel emptyStore) Msg.clearStatus ⟨by decide, by decide⟩⟩

end Shelf
